import Mathlib

/-!
# Window-size enforcement: a shallow embedding of `ChangeWindowResolution.cpp`

The development models the enforcement subsystem of the program: the two
registry maps and the hook handles (the globals of the source), the replaced
window procedure `CustomWindowProc`, the message hook `MessageProc`, the
enforcement thread `ForceWindowSizeThread`, and the public operations
`ForceWindowSize` and `CleanupResources`.

Modelling conventions.

* `int` and `LONG` values are integers; every arithmetic result of the source
  is reduced to the signed 32-bit range by `wrap32` (two's-complement
  wrap-around, which is what the compiled program computes).
* Style words are the 32-bit patterns returned by `GetWindowLong`, as naturals.
* The host windowing system is the `Desktop` (one optional `Window` per handle);
  the host calls used by the source (`GetWindowRect`, `SetWindowLong`,
  `SetWindowPos`, ...) are functions on it, and `SetWindowPos` is applied at once.
* Answers of the host that the program cannot predict (the cursor position, the
  behaviour of the original window procedure, the result of installing a hook)
  are arguments of the embedded functions.
* A payload pointer (`lParam`) is the structure it points to; a procedure that
  casts it to a structure of another shape has no defined result (`none`).
* Each embedded function is one uninterrupted step. Of the mutex `g_stateMutex`
  one effect is modelled: `CustomWindowProc` holds it while it calls the
  original procedure, so a call that hands the event to `CustomWindowProc`
  itself does not return (`ProcResult.returns`).
-/

namespace FRW

/-! ## Machine integers -/

/-- Signed 32-bit value held by an `int` after an arithmetic result `x`. -/
def wrap32 (x : Int) : Int := (x + 2147483648) % 4294967296 - 2147483648

/-- Range of the values an `int` or `LONG` variable can hold. -/
def isInt32 (x : Int) : Prop := -2147483648 ≤ x ∧ x < 2147483648

instance (x : Int) : Decidable (isInt32 x) :=
  inferInstanceAs (Decidable (-2147483648 ≤ x ∧ x < 2147483648))

/-- The `int` addition `a + b`. -/
def iadd (a b : Int) : Int := wrap32 (a + b)

/-- The `int` subtraction `a - b`. -/
def isub (a b : Int) : Int := wrap32 (a - b)

/-- The `int` division `a / b`, truncating toward zero. -/
def idiv (a b : Int) : Int := wrap32 (Int.tdiv a b)

/-- Bitwise complement of a 32-bit word (`~x` on a `LONG`). -/
def not32 (x : Nat) : Nat := x ^^^ 0xFFFFFFFF

/-! ## Constants -/

/-- Source line 22. -/
def CUSTOM_TITLE_HEIGHT : Int := 30

/-- Source line 24. -/
def THREAD_REFRESH_MS : Nat := 5

/-! Values of the Windows SDK header `winuser.h`. -/

def WM_SIZE : Nat := 0x0005
def WM_GETMINMAXINFO : Nat := 0x0024
def WM_WINDOWPOSCHANGING : Nat := 0x0046
def WM_WINDOWPOSCHANGED : Nat := 0x0047
def WM_NCCALCSIZE : Nat := 0x0083
def WM_NCHITTEST : Nat := 0x0084
def WM_NCPAINT : Nat := 0x0085
def WM_NCLBUTTONDOWN : Nat := 0x00A1
def WM_MOUSEMOVE : Nat := 0x0200
def WM_LBUTTONUP : Nat := 0x0202
def WM_SIZING : Nat := 0x0214

def WS_MAXIMIZEBOX : Nat := 0x00010000
def WS_MINIMIZEBOX : Nat := 0x00020000
def WS_THICKFRAME : Nat := 0x00040000
def WS_CAPTION : Nat := 0x00C00000

def SWP_NOSIZE : Nat := 0x0001
def SWP_NOMOVE : Nat := 0x0002
def SWP_NOZORDER : Nat := 0x0004
def SWP_NOACTIVATE : Nat := 0x0010
def SWP_FRAMECHANGED : Nat := 0x0020
def SWP_ASYNCWINDOWPOS : Nat := 0x4000

def HTCLIENT : Int := 1
def HTCAPTION : Int := 2

def HCBT_CREATEWND : Int := 3
def HCBT_ACTIVATE : Int := 5

/-! ## Data model -/

/-- Window handle; `0` is `NULL`. -/
abbrev HWND := Nat

/-- Hook handle; `0` is `NULL`. -/
abbrev HHOOK := Nat

abbrev UINT := Nat
abbrev WPARAM := Nat
abbrev LRESULT := Int

/-- Window procedure pointer: the interceptor of this program, or another address. -/
inductive WNDPROC
  | null
  | CustomWindowProc
  | native (address : Nat)
  deriving DecidableEq, Repr

structure POINT where
  x : Int
  y : Int
  deriving DecidableEq, Repr

structure RECT where
  left : Int
  top : Int
  right : Int
  bottom : Int
  deriving DecidableEq, Repr

structure MINMAXINFO where
  ptReserved : POINT
  ptMaxSize : POINT
  ptMaxPosition : POINT
  ptMinTrackSize : POINT
  ptMaxTrackSize : POINT
  deriving DecidableEq, Repr

structure WINDOWPOS where
  hwnd : HWND
  hwndInsertAfter : HWND
  x : Int
  y : Int
  cx : Int
  cy : Int
  flags : UINT
  deriving DecidableEq, Repr

/-- The three rectangles `rgrc[0..2]` and the structure `lppos` points to. -/
structure NCCALCSIZE_PARAMS where
  rgrc0 : RECT
  rgrc1 : RECT
  rgrc2 : RECT
  lppos : WINDOWPOS
  deriving DecidableEq, Repr

/-- What an `lParam` is: a plain number, or the structure it points to. -/
inductive LParam
  | value (v : Int)
  | minMaxInfo (info : MINMAXINFO)
  | ncCalcSize (params : NCCALCSIZE_PARAMS)
  | windowPos (pos : WINDOWPOS)
  deriving DecidableEq, Repr

/-- Queued message as the `WH_GETMESSAGE` hook receives it. -/
structure MSG where
  hwnd : HWND
  message : UINT
  wParam : WPARAM
  lParam : LParam
  time : Nat
  pt : POINT
  deriving DecidableEq, Repr

/-- Source lines 35-39. -/
structure ResizeData where
  width : Int
  height : Int
  keepForcing : Bool
  deriving DecidableEq, Repr

/-- A window of the host: outer rectangle, style words and procedure. -/
structure Window where
  rect : RECT
  style : Nat
  exStyle : Nat
  wndProc : WNDPROC
  deriving DecidableEq, Repr

/-- The windows of the host, by handle; `none` for a handle that is not a window. -/
abbrev Desktop := HWND → Option Window

/-- Program counter of an enforcement thread. -/
inductive Pc
  | start
  | body
  | check
  | restore
  | done
  deriving DecidableEq, Repr

/-- Arguments and locals of one run of `ForceWindowSizeThread`. -/
structure Thread where
  hwnd : HWND
  width : Int
  height : Int
  style : Nat
  exStyle : Nat
  newStyle : Nat
  pc : Pc
  deriving DecidableEq, Repr

/-- The globals of the source (lines 75-81), the host desktop, and the spawned threads. -/
structure State where
  windows : Desktop
  screenWidth : Int
  screenHeight : Int
  capture : Option HWND
  painted : List HWND
  g_originalWndProcs : List (HWND × WNDPROC)
  g_windowSizes : List (HWND × ResizeData)
  g_messageHook : HHOOK
  g_cbtHook : HHOOK
  g_isDragging : Bool
  g_dragStart : POINT
  threads : List Thread

/-! ## `std::map` -/

/-- The `find` of `std::map`: the value stored under `k`, if any. -/
def Map.find {V : Type} : List (HWND × V) → HWND → Option V
  | [], _ => none
  | (k1, v1) :: rest, k => if k1 = k then some v1 else Map.find rest k

/-- The assignment `m[k] = v` of `std::map`: keys stay ordered, an existing entry is overwritten. -/
def Map.assign {V : Type} : List (HWND × V) → HWND → V → List (HWND × V)
  | [], k, v => [(k, v)]
  | (k1, v1) :: rest, k, v =>
    if k < k1 then (k, v) :: (k1, v1) :: rest
    else if k = k1 then (k, v) :: rest
    else (k1, v1) :: Map.assign rest k v

/-! ## Host calls -/

def IsWindow (ws : Desktop) (hwnd : HWND) : Bool := (ws hwnd).isSome

def GetWindowRect (ws : Desktop) (hwnd : HWND) : Option RECT := (ws hwnd).map (·.rect)

/-- The call `GetWindowLong(hwnd, GWL_STYLE)`; `0` when it fails. -/
def GetWindowLong_STYLE (ws : Desktop) (hwnd : HWND) : Nat :=
  match ws hwnd with
  | some w => w.style
  | none => 0

/-- The call `GetWindowLong(hwnd, GWL_EXSTYLE)`; `0` when it fails. -/
def GetWindowLong_EXSTYLE (ws : Desktop) (hwnd : HWND) : Nat :=
  match ws hwnd with
  | some w => w.exStyle
  | none => 0

/-- The call `GetWindowLongPtr(hwnd, GWLP_WNDPROC)`; null when it fails. -/
def GetWindowLongPtr_WNDPROC (ws : Desktop) (hwnd : HWND) : WNDPROC :=
  match ws hwnd with
  | some w => w.wndProc
  | none => WNDPROC.null

/-- The call `SetWindowLong(hwnd, GWL_STYLE, v)`. -/
def SetWindowLong_STYLE (ws : Desktop) (hwnd : HWND) (v : Nat) : Desktop :=
  match ws hwnd with
  | some w => Function.update ws hwnd (some { w with style := v })
  | none => ws

/-- The call `SetWindowLong(hwnd, GWL_EXSTYLE, v)`. -/
def SetWindowLong_EXSTYLE (ws : Desktop) (hwnd : HWND) (v : Nat) : Desktop :=
  match ws hwnd with
  | some w => Function.update ws hwnd (some { w with exStyle := v })
  | none => ws

/-- The call `SetWindowLongPtr(hwnd, GWLP_WNDPROC, p)`. -/
def SetWindowLongPtr_WNDPROC (ws : Desktop) (hwnd : HWND) (p : WNDPROC) : Desktop :=
  match ws hwnd with
  | some w => Function.update ws hwnd (some { w with wndProc := p })
  | none => ws

/-- The effect of `SetWindowPos` on a rectangle: `SWP_NOMOVE` keeps the corner,
`SWP_NOSIZE` keeps the size, the other flags do not touch the rectangle. -/
def placeRect (r : RECT) (x y cx cy : Int) (flags : UINT) : RECT :=
  let left := if flags &&& SWP_NOMOVE ≠ 0 then r.left else x
  let top := if flags &&& SWP_NOMOVE ≠ 0 then r.top else y
  let w := if flags &&& SWP_NOSIZE ≠ 0 then isub r.right r.left else cx
  let h := if flags &&& SWP_NOSIZE ≠ 0 then isub r.bottom r.top else cy
  { left := left, top := top, right := iadd left w, bottom := iadd top h }

/-- The call `SetWindowPos(hwnd, NULL, x, y, cx, cy, flags)`, applied at once. -/
def SetWindowPos (ws : Desktop) (hwnd : HWND) (x y cx cy : Int) (flags : UINT) : Desktop :=
  match ws hwnd with
  | some w => Function.update ws hwnd (some { w with rect := placeRect w.rect x y cx cy flags })
  | none => ws

/-- Source lines 113-121. -/
def CenterWindowOnScreen (ws : Desktop) (screenWidth screenHeight : Int)
    (hwnd : HWND) (width height : Int) : Desktop :=
  let posX := idiv (isub screenWidth width) 2
  let posY := idiv (isub screenHeight height) 2
  SetWindowPos ws hwnd posX posY width height (SWP_NOZORDER ||| SWP_NOACTIVATE)

/-! ## The enforcement thread (source lines 389-449) -/

/-- The style adjustment of source lines 402-403. -/
def strip (style : Nat) : Nat :=
  (style &&& not32 (WS_THICKFRAME ||| WS_MAXIMIZEBOX ||| WS_MINIMIZEBOX)) ||| WS_CAPTION

/-- The thread as `std::thread enforceThread(ForceWindowSizeThread, hwnd, width, height)`
creates it: arguments set, locals not yet initialised. -/
def Thread.spawn (hwnd : HWND) (width height : Int) : Thread :=
  { hwnd := hwnd, width := width, height := height,
    style := 0, exStyle := 0, newStyle := 0, pc := Pc.start }

/-- Source lines 393-417: the record is stored, the styles are read and the
stripped style applied, the window is centred at the desired size. -/
def ForceWindowSizeThread.start (st : State) (t : Thread) : State × Thread :=
  let sizes := Map.assign st.g_windowSizes t.hwnd
    { width := t.width, height := t.height, keepForcing := true }
  let style := GetWindowLong_STYLE st.windows t.hwnd
  let exStyle := GetWindowLong_EXSTYLE st.windows t.hwnd
  let newStyle := strip style
  let ws1 := SetWindowLong_STYLE st.windows t.hwnd newStyle
  let ws2 := SetWindowLong_EXSTYLE ws1 t.hwnd exStyle
  let ws3 := SetWindowPos ws2 t.hwnd 0 0 0 0
    (SWP_NOMOVE ||| SWP_NOSIZE ||| SWP_NOZORDER ||| SWP_FRAMECHANGED)
  let ws4 := CenterWindowOnScreen ws3 st.screenWidth st.screenHeight t.hwnd t.width t.height
  ({ st with windows := ws4, g_windowSizes := sizes },
   { t with style := style, exStyle := exStyle, newStyle := newStyle, pc := Pc.body })

/-- Source lines 422-432: the geometry part of one loop iteration. -/
def ForceWindowSizeThread.body (st : State) (t : Thread) : State :=
  match GetWindowRect st.windows t.hwnd with
  | some rect =>
    let currentWidth := isub rect.right rect.left
    let currentHeight := isub rect.bottom rect.top
    if currentWidth ≠ t.width ∨ currentHeight ≠ t.height then
      let ws1 := SetWindowLong_STYLE st.windows t.hwnd t.newStyle
      let ws2 := SetWindowPos ws1 t.hwnd rect.left rect.top t.width t.height
        (SWP_NOZORDER ||| SWP_NOACTIVATE ||| SWP_ASYNCWINDOWPOS)
      { st with windows := ws2 }
    else st
  | none => st

/-- Source lines 437-443: the value of the local `keepForcing` after the check. -/
def ForceWindowSizeThread.check (st : State) (t : Thread) : Bool :=
  match Map.find st.g_windowSizes t.hwnd with
  | none => false
  | some sizeData => sizeData.keepForcing

/-- One pass through the `while` loop (source lines 421-444): geometry, sleep, flag check. -/
def ForceWindowSizeThread.iteration (st : State) (t : Thread) : State × Bool :=
  let st1 := ForceWindowSizeThread.body st t
  (st1, ForceWindowSizeThread.check st1 t)

/-- Source lines 447-448: the styles read at the start are written back. -/
def ForceWindowSizeThread.restore (st : State) (t : Thread) : State :=
  let ws1 := SetWindowLong_STYLE st.windows t.hwnd t.style
  let ws2 := SetWindowLong_EXSTYLE ws1 t.hwnd t.exStyle
  { st with windows := ws2 }

/-- One scheduling step of an enforcement thread. -/
def Thread.step (st : State) (t : Thread) : State × Thread :=
  match t.pc with
  | Pc.start => ForceWindowSizeThread.start st t
  | Pc.body => (ForceWindowSizeThread.body st t, { t with pc := Pc.check })
  | Pc.check =>
    (st, { t with pc := if ForceWindowSizeThread.check st t then Pc.body else Pc.restore })
  | Pc.restore => (ForceWindowSizeThread.restore st t, { t with pc := Pc.done })
  | Pc.done => (st, t)

/-- The thread at position `i` of the thread list takes one step. -/
def stepThread (st : State) (i : Nat) : State :=
  match st.threads[i]? with
  | some t =>
    let r := Thread.step st t
    { r.1 with threads := r.1.threads.set i r.2 }
  | none => st

/-- The thread at position `i` takes `n` steps in a row. -/
def stepsThread (st : State) (i : Nat) : Nat → State
  | 0 => st
  | n + 1 => stepsThread (stepThread st i) i n

/-! ## The public operations -/

/-- Source lines 452-490. `messageHookAnswer` and `cbtHookAnswer` are what
`SetWindowsHookEx` returns if it is called (`0` when the host refuses). -/
def ForceWindowSize (st : State) (hwnd : HWND) (width height : Int)
    (messageHookAnswer cbtHookAnswer : HHOOK) : Bool × State :=
  if hwnd = 0 ∨ IsWindow st.windows hwnd = false then (false, st)
  else
    let oldWndProc := GetWindowLongPtr_WNDPROC st.windows hwnd
    let procs := Map.assign st.g_originalWndProcs hwnd oldWndProc
    let ws := SetWindowLongPtr_WNDPROC st.windows hwnd WNDPROC.CustomWindowProc
    let messageHook := if st.g_messageHook = 0 then messageHookAnswer else st.g_messageHook
    let cbtHook := if st.g_cbtHook = 0 then cbtHookAnswer else st.g_cbtHook
    (true, { st with
      windows := ws, g_originalWndProcs := procs,
      g_messageHook := messageHook, g_cbtHook := cbtHook,
      threads := st.threads ++ [Thread.spawn hwnd width height] })

/-- Source lines 584-591: every recorded procedure is written back to its window. -/
def restoreWndProcs (procs : List (HWND × WNDPROC)) (ws : Desktop) : Desktop :=
  procs.foldl
    (fun (acc : Desktop) (pair : HWND × WNDPROC) =>
      if IsWindow acc pair.1 then SetWindowLongPtr_WNDPROC acc pair.1 pair.2 else acc)
    ws

/-- Source lines 561-596. -/
def CleanupResources (st : State) : State :=
  let st1 := { st with
    g_windowSizes := st.g_windowSizes.map
      (fun (pair : HWND × ResizeData) => (pair.1, { pair.2 with keepForcing := false })) }
  let st2 := if st1.g_messageHook ≠ 0 then { st1 with g_messageHook := 0 } else st1
  let st3 := if st2.g_cbtHook ≠ 0 then { st2 with g_cbtHook := 0 } else st2
  let st4 := { st3 with windows := restoreWndProcs st3.g_originalWndProcs st3.windows }
  { st4 with g_originalWndProcs := [], g_windowSizes := [] }

/-! ## Procedures of the host -/

/-- What a window procedure of the host does with an event, one function per
payload shape: the result, the payload as the procedure leaves it (a plain
number is passed by value), and the desktop afterwards. -/
structure WndProcBehaviour where
  onValue : HWND → UINT → WPARAM → Int → Desktop → LRESULT × Desktop
  onMinMaxInfo : HWND → UINT → WPARAM → MINMAXINFO → Desktop → LRESULT × MINMAXINFO × Desktop
  onNcCalcSize :
    HWND → UINT → WPARAM → NCCALCSIZE_PARAMS → Desktop → LRESULT × NCCALCSIZE_PARAMS × Desktop
  onWindowPos : HWND → UINT → WPARAM → WINDOWPOS → Desktop → LRESULT × WINDOWPOS × Desktop

/-- The procedure applied to an event of any payload shape. -/
def WndProcBehaviour.call (b : WndProcBehaviour) (hwnd : HWND) (msg : UINT) (wParam : WPARAM)
    (lParam : LParam) (ws : Desktop) : LRESULT × LParam × Desktop :=
  match lParam with
  | LParam.value v =>
    let r := b.onValue hwnd msg wParam v ws
    (r.1, LParam.value v, r.2)
  | LParam.minMaxInfo info =>
    let r := b.onMinMaxInfo hwnd msg wParam info ws
    (r.1, LParam.minMaxInfo r.2.1, r.2.2)
  | LParam.ncCalcSize params =>
    let r := b.onNcCalcSize hwnd msg wParam params ws
    (r.1, LParam.ncCalcSize r.2.1, r.2.2)
  | LParam.windowPos pos =>
    let r := b.onWindowPos hwnd msg wParam pos ws
    (r.1, LParam.windowPos r.2.1, r.2.2)

/-- The answers of the host during one call of a procedure of this program. -/
structure Host where
  GetCursorPos : Option POINT
  CallWindowProc : WNDPROC → WndProcBehaviour
  DefWindowProc : WndProcBehaviour
  ScreenToClient : HWND → POINT → POINT
  deviceContext : Bool
  CallNextHookEx : HHOOK → Int → WPARAM → MSG → LRESULT × MSG

/-- The procedure an event is handed to. -/
inductive Target
  | original (proc : WNDPROC)
  | defWindowProc
  deriving DecidableEq, Repr

/-- A call of `CallWindowProc` or `DefWindowProc`: the target and the arguments. -/
structure Forwarded where
  target : Target
  msg : UINT
  wParam : WPARAM
  lParam : LParam
  deriving DecidableEq, Repr

/-- Outcome of `CustomWindowProc`: the returned value, the payload and the state
afterwards, the call by which the event was handed on (`none`: consumed), and
whether the procedure returns to its caller. It does not return when it hands
the event to itself: the inner call waits for `g_stateMutex`, which the outer
call holds (line 253); `result` then stands for nothing, and `lParam` and
`state` are those at the moment of the call. -/
structure ProcResult where
  result : LRESULT
  lParam : LParam
  state : State
  forwarded : Option Forwarded
  returns : Bool

/-- The behaviour behind a target. -/
def Host.behaviour (host : Host) : Target → WndProcBehaviour
  | Target.original proc => host.CallWindowProc proc
  | Target.defWindowProc => host.DefWindowProc

/-- The event is handed to `target` and its result returned
(`return CallWindowProc(...)`, `return DefWindowProc(...)`). When the target is
the interceptor itself (the procedure stored by a second `ForceWindowSize`,
lines 463-464), the call re-enters `CustomWindowProc` under the lock of line 253
and does not return. -/
def forward (host : Host) (st : State) (target : Target) (hwnd : HWND) (msg : UINT)
    (wParam : WPARAM) (lParam : LParam) : ProcResult :=
  if target = Target.original WNDPROC.CustomWindowProc then
    { result := 0, lParam := lParam, state := st,
      forwarded := some { target := target, msg := msg, wParam := wParam, lParam := lParam },
      returns := false }
  else
    let r := (host.behaviour target).call hwnd msg wParam lParam st.windows
    { result := r.1, lParam := r.2.1, state := { st with windows := r.2.2 },
      forwarded := some { target := target, msg := msg, wParam := wParam, lParam := lParam },
      returns := true }

/-- The macro `GET_X_LPARAM`: the low word as a signed 16-bit number. -/
def GET_X_LPARAM (lp : Int) : Int :=
  let w := lp % 65536
  if w < 32768 then w else w - 65536

/-- The macro `GET_Y_LPARAM`: the high word as a signed 16-bit number. -/
def GET_Y_LPARAM (lp : Int) : Int :=
  let w := (lp / 65536) % 65536
  if w < 32768 then w else w - 65536

/-! ## The replaced window procedure (source lines 252-386) -/

/-- Source lines 360-385: size enforcement, then the original procedure. -/
def CustomWindowProc.enforce (host : Host) (st : State) (originalProc : WNDPROC) (hwnd : HWND)
    (msg : UINT) (wParam : WPARAM) (lParam : LParam) : Option ProcResult :=
  match Map.find st.g_windowSizes hwnd with
  | some sizeData =>
    if msg = WM_GETMINMAXINFO ∨ msg = WM_SIZE ∨ msg = WM_SIZING ∨
        msg = WM_WINDOWPOSCHANGING ∨ msg = WM_WINDOWPOSCHANGED then
      if msg = WM_GETMINMAXINFO then
        match lParam with
        | LParam.minMaxInfo info =>
          some { result := 0,
                 lParam := LParam.minMaxInfo { info with
                   ptMinTrackSize := { x := sizeData.width, y := sizeData.height },
                   ptMaxTrackSize := { x := sizeData.width, y := sizeData.height } },
                 state := st, forwarded := none, returns := true }
        | _ => none
      else if msg = WM_WINDOWPOSCHANGING then
        match lParam with
        | LParam.windowPos pos =>
          let pos1 :=
            if pos.flags &&& SWP_NOSIZE = 0 then
              { pos with cx := sizeData.width, cy := sizeData.height }
            else pos
          some (forward host st (Target.original originalProc) hwnd msg wParam
            (LParam.windowPos pos1))
        | _ => none
      else some (forward host st (Target.original originalProc) hwnd msg wParam lParam)
    else some (forward host st (Target.original originalProc) hwnd msg wParam lParam)
  | none => some (forward host st (Target.original originalProc) hwnd msg wParam lParam)

/-- Source lines 263-284: the case `WM_NCCALCSIZE`. -/
def CustomWindowProc.ncCalcSize (host : Host) (st : State) (originalProc : WNDPROC) (hwnd : HWND)
    (msg : UINT) (wParam : WPARAM) (lParam : LParam) : Option ProcResult :=
  if wParam ≠ 0 then
    match lParam with
    | LParam.ncCalcSize params =>
      if originalProc = WNDPROC.CustomWindowProc then
        some (forward host st (Target.original originalProc) hwnd msg wParam lParam)
      else
        let currentClient := params.rgrc0
        let r :=
          (host.CallWindowProc originalProc).onNcCalcSize hwnd msg wParam params st.windows
        let result := r.1
        let params1 := r.2.1
        let rc1 := { params1.rgrc0 with top := iadd currentClient.top CUSTOM_TITLE_HEIGHT }
        let rc2 :=
          match Map.find st.g_windowSizes hwnd with
          | some sizeData =>
            { rc1 with
              right := iadd rc1.left sizeData.width,
              bottom := isub (iadd rc1.top sizeData.height) CUSTOM_TITLE_HEIGHT }
          | none => rc1
        some { result := result,
               lParam := LParam.ncCalcSize { params1 with rgrc0 := rc2 },
               state := { st with windows := r.2.2 },
               forwarded := some { target := Target.original originalProc, msg := msg,
                                   wParam := wParam, lParam := lParam },
               returns := true }
    | _ => none
  else CustomWindowProc.enforce host st originalProc hwnd msg wParam lParam

/-- Source lines 286-295: the case `WM_NCPAINT`; a call of `DrawCustomTitleBar`
is recorded in `painted`. -/
def CustomWindowProc.ncPaint (host : Host) (st : State) (originalProc : WNDPROC) (hwnd : HWND)
    (msg : UINT) (wParam : WPARAM) (lParam : LParam) : Option ProcResult :=
  let r := forward host st (Target.original originalProc) hwnd msg wParam lParam
  if r.returns = false then some r
  else if host.deviceContext then
    some { r with state := { r.state with painted := r.state.painted ++ [hwnd] } }
  else some r

/-- Source lines 297-311: the case `WM_NCLBUTTONDOWN`. -/
def CustomWindowProc.ncLButtonDown (host : Host) (st : State) (originalProc : WNDPROC)
    (hwnd : HWND) (msg : UINT) (wParam : WPARAM) (lParam : LParam) : Option ProcResult :=
  match host.GetCursorPos with
  | some cursorPos =>
    match GetWindowRect st.windows hwnd with
    | some windowRect =>
      if cursorPos.y ≥ windowRect.top ∧
          cursorPos.y ≤ iadd windowRect.top CUSTOM_TITLE_HEIGHT then
        some { result := 0, lParam := lParam,
               state := { st with
                 g_isDragging := true, g_dragStart := cursorPos, capture := some hwnd },
               forwarded := none, returns := true }
      else CustomWindowProc.enforce host st originalProc hwnd msg wParam lParam
    | none => CustomWindowProc.enforce host st originalProc hwnd msg wParam lParam
  | none => CustomWindowProc.enforce host st originalProc hwnd msg wParam lParam

/-- Source lines 313-333: the case `WM_MOUSEMOVE`. -/
def CustomWindowProc.mouseMove (host : Host) (st : State) (originalProc : WNDPROC) (hwnd : HWND)
    (msg : UINT) (wParam : WPARAM) (lParam : LParam) : Option ProcResult :=
  if st.g_isDragging then
    match host.GetCursorPos with
    | some cursorPos =>
      let deltaX := isub cursorPos.x st.g_dragStart.x
      let deltaY := isub cursorPos.y st.g_dragStart.y
      let ws :=
        match GetWindowRect st.windows hwnd with
        | some windowRect =>
          SetWindowPos st.windows hwnd (iadd windowRect.left deltaX) (iadd windowRect.top deltaY)
            0 0 (SWP_NOSIZE ||| SWP_NOZORDER)
        | none => st.windows
      some { result := 0, lParam := lParam,
             state := { st with g_dragStart := cursorPos, windows := ws },
             forwarded := none, returns := true }
    | none => CustomWindowProc.enforce host st originalProc hwnd msg wParam lParam
  else CustomWindowProc.enforce host st originalProc hwnd msg wParam lParam

/-- Source lines 335-342: the case `WM_LBUTTONUP`. -/
def CustomWindowProc.lButtonUp (host : Host) (st : State) (originalProc : WNDPROC) (hwnd : HWND)
    (msg : UINT) (wParam : WPARAM) (lParam : LParam) : Option ProcResult :=
  if st.g_isDragging then
    some { result := 0, lParam := lParam,
           state := { st with g_isDragging := false, capture := none },
           forwarded := none, returns := true }
  else CustomWindowProc.enforce host st originalProc hwnd msg wParam lParam

/-- Source lines 344-357: the case `WM_NCHITTEST`. -/
def CustomWindowProc.ncHitTest (host : Host) (st : State) (originalProc : WNDPROC) (hwnd : HWND)
    (msg : UINT) (wParam : WPARAM) (lParam : LParam) : Option ProcResult :=
  match lParam with
  | LParam.value v =>
    let r := forward host st (Target.original originalProc) hwnd msg wParam lParam
    let hit := r.result
    if r.returns = false then some r
    else if hit = HTCLIENT then
      let pt := host.ScreenToClient hwnd { x := GET_X_LPARAM v, y := GET_Y_LPARAM v }
      if pt.y ≥ 0 ∧ pt.y ≤ CUSTOM_TITLE_HEIGHT then some { r with result := HTCAPTION }
      else some r
    else some r
  | _ => none

/-- Source lines 252-386. -/
def CustomWindowProc (host : Host) (st : State) (hwnd : HWND) (msg : UINT) (wParam : WPARAM)
    (lParam : LParam) : Option ProcResult :=
  match Map.find st.g_originalWndProcs hwnd with
  | none => some (forward host st Target.defWindowProc hwnd msg wParam lParam)
  | some originalProc =>
    if msg = WM_NCCALCSIZE then
      CustomWindowProc.ncCalcSize host st originalProc hwnd msg wParam lParam
    else if msg = WM_NCPAINT then
      CustomWindowProc.ncPaint host st originalProc hwnd msg wParam lParam
    else if msg = WM_NCLBUTTONDOWN then
      CustomWindowProc.ncLButtonDown host st originalProc hwnd msg wParam lParam
    else if msg = WM_MOUSEMOVE then
      CustomWindowProc.mouseMove host st originalProc hwnd msg wParam lParam
    else if msg = WM_LBUTTONUP then
      CustomWindowProc.lButtonUp host st originalProc hwnd msg wParam lParam
    else if msg = WM_NCHITTEST then
      CustomWindowProc.ncHitTest host st originalProc hwnd msg wParam lParam
    else CustomWindowProc.enforce host st originalProc hwnd msg wParam lParam

/-! ## The message hook (source lines 164-232) -/

/-- Outcome of `MessageProc`: the returned value, the message and the state
afterwards, and the message as handed to `CallNextHookEx` (`none`: not handed on). -/
structure HookResult where
  result : LRESULT
  msg : MSG
  state : State
  passedOn : Option MSG

/-- Source line 231: `return CallNextHookEx(g_messageHook, nCode, wParam, lParam)`. -/
def MessageProc.next (host : Host) (st : State) (nCode : Int) (wParam : WPARAM) (msg : MSG) :
    HookResult :=
  let r := host.CallNextHookEx st.g_messageHook nCode wParam msg
  { result := r.1, msg := r.2, state := st, passedOn := some msg }

/-- Source lines 164-232; `msg` is the structure the hook's `lParam` points to. -/
def MessageProc (host : Host) (st : State) (nCode : Int) (wParam : WPARAM) (msg : MSG) :
    Option HookResult :=
  if nCode ≥ 0 then
    match Map.find st.g_windowSizes msg.hwnd with
    | some sizeData =>
      if msg.message = WM_SIZE ∨ msg.message = WM_SIZING ∨
          msg.message = WM_WINDOWPOSCHANGED ∨ msg.message = WM_WINDOWPOSCHANGING ∨
          msg.message = WM_GETMINMAXINFO ∨ msg.message = WM_NCCALCSIZE then
        if msg.message = WM_GETMINMAXINFO then
          match msg.lParam with
          | LParam.minMaxInfo info =>
            some { result := 0,
                   msg := { msg with lParam := LParam.minMaxInfo { info with
                     ptMinTrackSize := { x := sizeData.width, y := sizeData.height },
                     ptMaxTrackSize := { x := sizeData.width, y := sizeData.height } } },
                   state := st, passedOn := none }
          | _ => none
        else if msg.message = WM_NCCALCSIZE then
          if msg.wParam ≠ 0 then
            match msg.lParam with
            | LParam.ncCalcSize params =>
              let clientRect := params.rgrc0
              if isub clientRect.right clientRect.left ≠ sizeData.width ∨
                  isub clientRect.bottom clientRect.top ≠ sizeData.height then
                let clientRect1 := { clientRect with
                  right := iadd clientRect.left sizeData.width,
                  bottom := iadd clientRect.top sizeData.height }
                some (MessageProc.next host st nCode wParam
                  { msg with lParam := LParam.ncCalcSize { params with rgrc0 := clientRect1 } })
              else some (MessageProc.next host st nCode wParam msg)
            | _ => none
          else some (MessageProc.next host st nCode wParam msg)
        else if msg.message = WM_WINDOWPOSCHANGING then
          match msg.lParam with
          | LParam.windowPos pos =>
            let pos1 :=
              if pos.flags &&& SWP_NOSIZE = 0 then
                { pos with cx := sizeData.width, cy := sizeData.height }
              else pos
            some (MessageProc.next host st nCode wParam
              { msg with lParam := LParam.windowPos pos1 })
          | _ => none
        else
          match GetWindowRect st.windows msg.hwnd with
          | some rect =>
            let currentWidth := isub rect.right rect.left
            let currentHeight := isub rect.bottom rect.top
            if currentWidth ≠ sizeData.width ∨ currentHeight ≠ sizeData.height then
              let ws := SetWindowPos st.windows msg.hwnd 0 0 sizeData.width sizeData.height
                (SWP_NOMOVE ||| SWP_NOZORDER ||| SWP_NOACTIVATE ||| SWP_ASYNCWINDOWPOS)
              some (MessageProc.next host { st with windows := ws } nCode wParam msg)
            else some (MessageProc.next host st nCode wParam msg)
          | none => some (MessageProc.next host st nCode wParam msg)
      else some (MessageProc.next host st nCode wParam msg)
    | none => some (MessageProc.next host st nCode wParam msg)
  else some (MessageProc.next host st nCode wParam msg)

/-! ## Pointer gestures -/

/-- A pointer event as the procedure meets it: where `GetCursorPos` finds the
cursor, and the arguments of the message. -/
structure PointerEvent where
  cursor : POINT
  wParam : WPARAM
  lParam : LParam

/-- The message `msg` of a pointer event is delivered to `CustomWindowProc`. -/
def deliver (host : Host) (st : State) (hwnd : HWND) (msg : UINT) (ev : PointerEvent) :
    Option ProcResult :=
  CustomWindowProc { host with GetCursorPos := some ev.cursor } st hwnd msg ev.wParam ev.lParam

/-- The pointer moves of a gesture, delivered in turn as `WM_MOUSEMOVE`. -/
def deliverMoves (host : Host) (hwnd : HWND) : State → List PointerEvent → Option State
  | st, [] => some st
  | st, ev :: rest =>
    match deliver host st hwnd WM_MOUSEMOVE ev with
    | some r => deliverMoves host hwnd r.state rest
    | none => none

/-- A press (`WM_NCLBUTTONDOWN`) followed by pointer moves. -/
def pressAndMoves (host : Host) (st : State) (hwnd : HWND) (press : PointerEvent)
    (moves : List PointerEvent) : Option State :=
  match deliver host st hwnd WM_NCLBUTTONDOWN press with
  | some r => deliverMoves host hwnd r.state moves
  | none => none

/-- A whole gesture: press, pointer moves, release (`WM_LBUTTONUP`). -/
def dragGesture (host : Host) (st : State) (hwnd : HWND) (press : PointerEvent)
    (moves : List PointerEvent) (release : PointerEvent) : Option State :=
  match pressAndMoves host st hwnd press moves with
  | some st1 => (deliver host st1 hwnd WM_LBUTTONUP release).map (·.state)
  | none => none

/-- The cursor at the last pointer move, or at `start` when there is none. -/
def lastCursor (start : POINT) : List PointerEvent → POINT
  | [] => start
  | ev :: rest => lastCursor ev.cursor rest

/-! ## Invariants of the enforcement thread -/

/-- Thread `i` enforces `hwnd`, holds the captured styles `s` and `e`, and stands
at `pc`; the window exists with extended style `e` and procedure `q`, and has
style `s` once the thread is done. -/
def ThreadAt (st : State) (i : Nat) (hwnd : HWND) (s e : Nat) (q : WNDPROC) (pc : Pc) : Prop :=
  ∃ t w, st.threads[i]? = some t ∧ t.hwnd = hwnd ∧ t.style = s ∧ t.exStyle = e ∧ t.pc = pc ∧
    st.windows hwnd = some w ∧ w.exStyle = e ∧ w.wndProc = q ∧ (pc = Pc.done → w.style = s)

/-- Thread `i` is inside its loop, the record of `hwnd` is active, and the
original-procedure map is `procs`. -/
def Looping (st : State) (i : Nat) (hwnd : HWND) (s e : Nat) (procs : List (HWND × WNDPROC)) :
    Prop :=
  (ThreadAt st i hwnd s e WNDPROC.CustomWindowProc Pc.body ∨
    ThreadAt st i hwnd s e WNDPROC.CustomWindowProc Pc.check) ∧
  (∃ d, Map.find st.g_windowSizes hwnd = some d ∧ d.keepForcing = true) ∧
  st.g_originalWndProcs = procs

/-! ## Interleavings -/

/-- One step of an interleaving of the program's actors: a call of
`ForceWindowSize` (any arguments, any answers of the host to the hook
installations), one step of a spawned enforcement thread (its initialisation,
a geometry pass, a flag check, its exit), or a call of `CleanupResources`. -/
inductive Step : State → State → Prop
  | forceWindowSize (st : State) (hwnd : HWND) (width height : Int)
      (messageHookAnswer cbtHookAnswer : HHOOK) :
      Step st (ForceWindowSize st hwnd width height messageHookAnswer cbtHookAnswer).2
  | thread (st : State) (i : Nat) : Step st (stepThread st i)
  | cleanup (st : State) : Step st (CleanupResources st)

/-- The steps of `Step`, with `CleanupResources` running only when no spawned
thread is still waiting to initialise. -/
inductive GuardedStep : State → State → Prop
  | forceWindowSize (st : State) (hwnd : HWND) (width height : Int)
      (messageHookAnswer cbtHookAnswer : HHOOK) :
      GuardedStep st (ForceWindowSize st hwnd width height messageHookAnswer cbtHookAnswer).2
  | thread (st : State) (i : Nat) : GuardedStep st (stepThread st i)
  | cleanup (st : State) (hready : ∀ t ∈ st.threads, t.pc ≠ Pc.start) :
      GuardedStep st (CleanupResources st)

/-- The states reachable from `init` by the steps of `step`. -/
inductive Reachable (step : State → State → Prop) (init : State) : State → Prop
  | start : Reachable step init init
  | next {s s1 : State} : Reachable step init s → step s s1 → Reachable step init s1

/-- The program before anything is enforced: both maps empty, no thread spawned. -/
def EmptyRegistry (st : State) : Prop :=
  st.g_originalWndProcs = [] ∧ st.g_windowSizes = [] ∧ st.threads = []

/-- Every handle present in the geometry map is present in the original-procedure map. -/
def RegistryInv (st : State) : Prop :=
  ∀ h : HWND, (Map.find st.g_windowSizes h).isSome = true →
    (Map.find st.g_originalWndProcs h).isSome = true

/-! ## A concrete desktop -/

/-- A desktop with one window, handle `1`: 400 by 300 at (100, 100), an
overlapped-window style, procedure at address 7. -/
def demoDesktop : Desktop := fun h =>
  if h = 1 then
    some { rect := { left := 100, top := 100, right := 500, bottom := 400 },
           style := 0x00CF0000, exStyle := 0x00000100, wndProc := WNDPROC.native 7 }
  else none

/-- The state of the program before any window is enforced, on `demoDesktop`. -/
def demoState : State :=
  { windows := demoDesktop, screenWidth := 1920, screenHeight := 1080,
    capture := none, painted := [],
    g_originalWndProcs := [], g_windowSizes := [],
    g_messageHook := 0, g_cbtHook := 0,
    g_isDragging := false, g_dragStart := { x := 0, y := 0 }, threads := [] }

/-- The state after `ForceWindowSize` on window `1` at 800 by 600 (hooks `11`
and `12` granted) and the start of its enforcement thread. -/
def demoEnforced : State :=
  stepThread (ForceWindowSize demoState 1 800 600 11 12).2 0

/-- Window `1` in `demoEnforced`: centred at 800 by 600 on the 1920 by 1080
screen, resize styles stripped, interceptor installed. -/
def demoEnforcedWindow : Window :=
  { rect := { left := 560, top := 240, right := 1360, bottom := 840 },
    style := 0x00C80000, exStyle := 0x00000100, wndProc := WNDPROC.CustomWindowProc }

/-- `ForceWindowSize` on window `1`, then `CleanupResources`, then the
initialisation of the spawned thread. -/
def demoRace : State :=
  stepThread (CleanupResources (ForceWindowSize demoState 1 800 600 11 12).2) 0

/-- The state after `ForceWindowSize` on window `1`, before its enforcement
thread has started: the interceptor is installed, the geometry map is empty. -/
def demoIntercepted : State :=
  (ForceWindowSize demoState 1 800 600 11 12).2

/-- A frame-geometry negotiation payload for a window at (100, 100), 400 by 300. -/
def demoNcCalcSize : NCCALCSIZE_PARAMS :=
  { rgrc0 := { left := 100, top := 100, right := 500, bottom := 400 },
    rgrc1 := { left := 100, top := 100, right := 500, bottom := 400 },
    rgrc2 := { left := 108, top := 131, right := 492, bottom := 392 },
    lppos := { hwnd := 1, hwndInsertAfter := 0, x := 100, y := 100, cx := 400, cy := 300,
               flags := 0 } }

/-- A state in which window `1` has a record in the geometry map and no entry
in the original-procedure map, while the interceptor is its procedure:
`ForceWindowSize` twice, `CleanupResources`, then the first thread starts. -/
def demoOrphan : State :=
  stepThread
    (CleanupResources
      (ForceWindowSize (ForceWindowSize demoState 1 800 600 11 12).2 1 800 600 11 12).2) 0

/-- A pre-resize negotiation payload proposing 1000 by 1000 at (100, 100). -/
def demoWindowPos : WINDOWPOS :=
  { hwnd := 1, hwndInsertAfter := 0, x := 100, y := 100, cx := 1000, cy := 1000, flags := 0 }

/-- The state after `ForceWindowSize` twice on window `1`, before any loop has
started: the procedure stored for the window is the interceptor itself, and
the geometry map is empty. -/
def demoTwiceIntercepted : State :=
  (ForceWindowSize (ForceWindowSize demoState 1 800 600 11 12).2 1 800 600 11 12).2

/-- The state `demoTwiceIntercepted` after `CleanupResources`: both maps are
empty and the interceptor is the procedure of window `1`. -/
def demoStale : State :=
  CleanupResources demoTwiceIntercepted

/-- The state after a second `ForceWindowSize` on the enforced window of
`demoEnforced`: the record 800 by 600 is present and the procedure stored for
the window is the interceptor itself. -/
def demoTwice : State :=
  (ForceWindowSize demoEnforced 1 1024 768 13 14).2

/-- A procedure that returns `0` and touches neither payload nor desktop. -/
def idleBehaviour : WndProcBehaviour :=
  { onValue := fun _ _ _ _ ws => (0, ws),
    onMinMaxInfo := fun _ _ _ info ws => (0, info, ws),
    onNcCalcSize := fun _ _ _ params ws => (0, params, ws),
    onWindowPos := fun _ _ _ pos ws => (0, pos, ws) }

/-- A procedure that, on a frame-geometry negotiation, insets every rectangle
edge by a border of 8 and returns `0x0300`; idle otherwise. -/
def borderBehaviour : WndProcBehaviour :=
  { idleBehaviour with
    onNcCalcSize := fun _ _ _ params ws =>
      (0x0300,
       { params with rgrc0 :=
          { left := iadd params.rgrc0.left 8, top := iadd params.rgrc0.top 8,
            right := isub params.rgrc0.right 8, bottom := isub params.rgrc0.bottom 8 } },
       ws) }

/-- A host whose window procedures all behave as `borderBehaviour`. -/
def borderHost : Host :=
  { GetCursorPos := none,
    CallWindowProc := fun _ => borderBehaviour,
    DefWindowProc := borderBehaviour,
    ScreenToClient := fun _ p => p,
    deviceContext := true,
    CallNextHookEx := fun _ _ _ msg => (0, msg) }

/-- A procedure that answers `HTCLIENT` to every event with a plain `lParam`;
idle otherwise. -/
def clientBehaviour : WndProcBehaviour :=
  { idleBehaviour with onValue := fun _ _ _ _ ws => (HTCLIENT, ws) }

/-- A host whose window procedures all behave as `clientBehaviour`, with the
client area of every window starting at the screen point (100, 100). -/
def clientHost : Host :=
  { GetCursorPos := none,
    CallWindowProc := fun _ => clientBehaviour,
    DefWindowProc := clientBehaviour,
    ScreenToClient := fun _ p => { x := isub p.x 100, y := isub p.y 100 },
    deviceContext := true,
    CallNextHookEx := fun _ _ _ msg => (0, msg) }

/-- The state `demoIntercepted` in the middle of a drag that started at (300, 110). -/
def demoDragging : State :=
  { demoIntercepted with
    g_isDragging := true, g_dragStart := { x := 300, y := 110 }, capture := some 1 }

/-- A host whose original procedures behave as `clientBehaviour` (they answer
`HTCLIENT`) while `DefWindowProc` is idle (it answers `0`). -/
def splitHost : Host :=
  { GetCursorPos := none,
    CallWindowProc := fun _ => clientBehaviour,
    DefWindowProc := idleBehaviour,
    ScreenToClient := fun _ p => p,
    deviceContext := true,
    CallNextHookEx := fun _ _ _ msg => (0, msg) }

/-- A host whose procedures are idle, with the cursor at `cursor`. -/
def demoHost (cursor : POINT) : Host :=
  { GetCursorPos := some cursor,
    CallWindowProc := fun _ => idleBehaviour,
    DefWindowProc := idleBehaviour,
    ScreenToClient := fun _ p => p,
    deviceContext := true,
    CallNextHookEx := fun _ _ _ msg => (0, msg) }

/-- A size query as the host fills it in for a 1920 by 1080 screen. -/
def demoMinMaxInfo : MINMAXINFO :=
  { ptReserved := { x := 0, y := 0 },
    ptMaxSize := { x := 1936, y := 1096 },
    ptMaxPosition := { x := -8, y := -8 },
    ptMinTrackSize := { x := 136, y := 39 },
    ptMaxTrackSize := { x := 1940, y := 1100 } }

/-! ## Facts about the arithmetic and the maps -/

theorem wrap32_of_isInt32 {x : Int} (h : isInt32 x) : wrap32 x = x := by
  unfold isInt32 at h
  unfold wrap32
  omega

theorem isInt32_wrap32 (x : Int) : isInt32 (wrap32 x) := by
  unfold isInt32 wrap32
  omega

theorem isub_iadd_cancel (a b : Int) : isub (iadd a b) a = wrap32 b := by
  unfold isub iadd wrap32
  omega

theorem iadd_isub_cancel (a b : Int) : iadd a (isub b a) = wrap32 b := by
  unfold isub iadd wrap32
  omega

theorem Map.find_assign_self {V : Type} (m : List (HWND × V)) (k : HWND) (v : V) :
    Map.find (Map.assign m k v) k = some v := by
  induction m with
  | nil => simp [Map.assign, Map.find]
  | cons p rest ih =>
    obtain ⟨k1, v1⟩ := p
    unfold Map.assign
    by_cases h1 : k < k1
    · simp [h1, Map.find]
    · by_cases h2 : k = k1
      · simp [h2, Map.find]
      · have h3 : ¬ k1 = k := fun h => h2 h.symm
        simp [h1, h2, h3, Map.find, ih]

theorem Map.find_assign_other {V : Type} (m : List (HWND × V)) (k j : HWND) (v : V)
    (h : j ≠ k) : Map.find (Map.assign m k v) j = Map.find m j := by
  induction m with
  | nil =>
    have h3 : ¬ k = j := fun e => h e.symm
    simp [Map.assign, Map.find, h3]
  | cons p rest ih =>
    obtain ⟨k1, v1⟩ := p
    have h3 : ¬ k = j := fun e => h e.symm
    unfold Map.assign
    by_cases h1 : k < k1
    · simp [h1, Map.find, h3]
    · by_cases h2 : k = k1
      · subst h2
        simp [Map.find, h3]
      · simp [h1, h2, Map.find, ih]

/-! ## Facts about the host calls -/

theorem SetWindowLong_STYLE_same {ws : Desktop} {h : HWND} {w : Window} (v : Nat)
    (hw : ws h = some w) : SetWindowLong_STYLE ws h v h = some { w with style := v } := by
  simp [SetWindowLong_STYLE, hw]

theorem SetWindowLong_EXSTYLE_same {ws : Desktop} {h : HWND} {w : Window} (v : Nat)
    (hw : ws h = some w) : SetWindowLong_EXSTYLE ws h v h = some { w with exStyle := v } := by
  simp [SetWindowLong_EXSTYLE, hw]

theorem SetWindowLongPtr_WNDPROC_same {ws : Desktop} {h : HWND} {w : Window} (p : WNDPROC)
    (hw : ws h = some w) : SetWindowLongPtr_WNDPROC ws h p h = some { w with wndProc := p } := by
  simp [SetWindowLongPtr_WNDPROC, hw]

theorem SetWindowPos_same {ws : Desktop} {h : HWND} {w : Window} (x y cx cy : Int) (flags : UINT)
    (hw : ws h = some w) :
    SetWindowPos ws h x y cx cy flags h
      = some { w with rect := placeRect w.rect x y cx cy flags } := by
  simp [SetWindowPos, hw]

theorem placeRect_move_size (r : RECT) (x y cx cy : Int) (flags : UINT)
    (hm : flags &&& SWP_NOMOVE = 0) (hs : flags &&& SWP_NOSIZE = 0) :
    placeRect r x y cx cy flags
      = { left := x, top := y, right := iadd x cx, bottom := iadd y cy } := by
  simp [placeRect, hm, hs]

theorem SetWindowLongPtr_WNDPROC_other {ws : Desktop} {h j : HWND} (p : WNDPROC) (hj : j ≠ h) :
    SetWindowLongPtr_WNDPROC ws h p j = ws j := by
  unfold SetWindowLongPtr_WNDPROC
  cases ws h with
  | none => rfl
  | some w => simp [Function.update, hj]

/-! ## Facts about the enforcement thread -/

theorem body_effect (st : State) (t : Thread) (w : Window) (hw : st.windows t.hwnd = some w) :
    (∃ w1, (ForceWindowSizeThread.body st t).windows t.hwnd = some w1 ∧
      w1.exStyle = w.exStyle ∧ w1.wndProc = w.wndProc) ∧
    (ForceWindowSizeThread.body st t).threads = st.threads ∧
    (ForceWindowSizeThread.body st t).g_windowSizes = st.g_windowSizes ∧
    (ForceWindowSizeThread.body st t).g_originalWndProcs = st.g_originalWndProcs := by
  unfold ForceWindowSizeThread.body
  simp only [GetWindowRect, hw, Option.map_some']
  split
  · refine ⟨⟨_, SetWindowPos_same _ _ _ _ _ (SetWindowLong_STYLE_same _ hw), rfl, rfl⟩, rfl, rfl, rfl⟩
  · exact ⟨⟨w, hw, rfl, rfl⟩, rfl, rfl, rfl⟩

theorem restore_effect (st : State) (t : Thread) (w : Window) (hw : st.windows t.hwnd = some w) :
    (ForceWindowSizeThread.restore st t).windows t.hwnd
      = some { w with style := t.style, exStyle := t.exStyle } := by
  unfold ForceWindowSizeThread.restore
  exact SetWindowLong_EXSTYLE_same _ (SetWindowLong_STYLE_same _ hw)

theorem start_effect (st : State) (t : Thread) (w : Window) (hw : st.windows t.hwnd = some w) :
    (∃ w1, (ForceWindowSizeThread.start st t).1.windows t.hwnd = some w1 ∧
      w1.exStyle = w.exStyle ∧ w1.wndProc = w.wndProc) ∧
    (ForceWindowSizeThread.start st t).2
      = { t with style := w.style, exStyle := w.exStyle, newStyle := strip w.style,
                 pc := Pc.body } ∧
    (ForceWindowSizeThread.start st t).1.threads = st.threads ∧
    Map.find (ForceWindowSizeThread.start st t).1.g_windowSizes t.hwnd
      = some { width := t.width, height := t.height, keepForcing := true } ∧
    (ForceWindowSizeThread.start st t).1.g_originalWndProcs = st.g_originalWndProcs := by
  refine ⟨?_, ?_, rfl, Map.find_assign_self _ _ _, rfl⟩
  · unfold ForceWindowSizeThread.start CenterWindowOnScreen
    refine ⟨_, SetWindowPos_same _ _ _ _ _ (SetWindowPos_same _ _ _ _ _
      (SetWindowLong_EXSTYLE_same _ (SetWindowLong_STYLE_same _ hw))), ?_, rfl⟩
    simp [GetWindowLong_EXSTYLE, hw]
  · simp [ForceWindowSizeThread.start, GetWindowLong_STYLE, GetWindowLong_EXSTYLE, hw]

theorem stepsThread_add (st : State) (i a b : Nat) :
    stepsThread st i (a + b) = stepsThread (stepsThread st i a) i b := by
  induction a generalizing st with
  | zero => simp [stepsThread]
  | succ a ih =>
    have e : a + 1 + b = (a + b) + 1 := by omega
    rw [e]
    simp only [stepsThread]
    exact ih _

theorem step_body {st : State} {i : Nat} {hwnd : HWND} {s e : Nat} {q : WNDPROC}
    (h : ThreadAt st i hwnd s e q Pc.body) :
    ThreadAt (stepThread st i) i hwnd s e q Pc.check ∧
    (stepThread st i).g_windowSizes = st.g_windowSizes ∧
    (stepThread st i).g_originalWndProcs = st.g_originalWndProcs := by
  obtain ⟨t, w, ht, hh, hs, he, hpc, hw, hwe, hwq, _⟩ := h
  subst hh
  obtain ⟨⟨w1, hw1, e1, e2⟩, hthr, hsz, hpr⟩ := body_effect st t w hw
  have hlt : i < st.threads.length := by
    obtain ⟨hlt, _⟩ := List.getElem?_eq_some.mp ht
    exact hlt
  simp only [stepThread, ht, Thread.step, hpc]
  refine ⟨⟨{ t with pc := Pc.check }, w1, ?_, rfl, hs, he, rfl, hw1, ?_, ?_, ?_⟩, hsz, hpr⟩
  · simp only [hthr]
    exact List.getElem?_set_self hlt
  · rw [e1, hwe]
  · rw [e2, hwq]
  · intro hc
    cases hc

theorem step_check_active {st : State} {i : Nat} {hwnd : HWND} {s e : Nat} {q : WNDPROC}
    (h : ThreadAt st i hwnd s e q Pc.check)
    (hrec : ∃ d, Map.find st.g_windowSizes hwnd = some d ∧ d.keepForcing = true) :
    ThreadAt (stepThread st i) i hwnd s e q Pc.body ∧
    (stepThread st i).g_windowSizes = st.g_windowSizes ∧
    (stepThread st i).g_originalWndProcs = st.g_originalWndProcs := by
  obtain ⟨t, w, ht, hh, hs, he, hpc, hw, hwe, hwq, _⟩ := h
  subst hh
  obtain ⟨d, hd, hk⟩ := hrec
  have hlt : i < st.threads.length := by
    obtain ⟨hlt, _⟩ := List.getElem?_eq_some.mp ht
    exact hlt
  simp only [stepThread, ht, Thread.step, hpc, ForceWindowSizeThread.check, hd, hk, if_true]
  refine ⟨⟨{ t with pc := Pc.body }, w, List.getElem?_set_self hlt, rfl, hs, he, rfl, hw, hwe, hwq,
    ?_⟩, trivial, trivial⟩
  intro hc
  cases hc

theorem step_check_stop {st : State} {i : Nat} {hwnd : HWND} {s e : Nat} {q : WNDPROC}
    (h : ThreadAt st i hwnd s e q Pc.check) (hrec : Map.find st.g_windowSizes hwnd = none) :
    ThreadAt (stepThread st i) i hwnd s e q Pc.restore := by
  obtain ⟨t, w, ht, hh, hs, he, hpc, hw, hwe, hwq, _⟩ := h
  subst hh
  have hlt : i < st.threads.length := by
    obtain ⟨hlt, _⟩ := List.getElem?_eq_some.mp ht
    exact hlt
  simp only [stepThread, ht, Thread.step, hpc, ForceWindowSizeThread.check, hrec]
  refine ⟨{ t with pc := Pc.restore }, w, List.getElem?_set_self hlt, rfl, hs, he, rfl, hw, hwe,
    hwq, ?_⟩
  intro hc
  cases hc

theorem step_restore {st : State} {i : Nat} {hwnd : HWND} {s e : Nat} {q : WNDPROC}
    (h : ThreadAt st i hwnd s e q Pc.restore) :
    ThreadAt (stepThread st i) i hwnd s e q Pc.done := by
  obtain ⟨t, w, ht, hh, hs, he, hpc, hw, hwe, hwq, _⟩ := h
  subst hh
  have hlt : i < st.threads.length := by
    obtain ⟨hlt, _⟩ := List.getElem?_eq_some.mp ht
    exact hlt
  have hr := restore_effect st t w hw
  simp only [stepThread, ht, Thread.step, hpc]
  refine ⟨{ t with pc := Pc.done }, _, ?_, rfl, hs, he, rfl, hr, he, hwq, ?_⟩
  · exact List.getElem?_set_self hlt
  · intro _
    exact hs

theorem step_done {st : State} {i : Nat} {hwnd : HWND} {s e : Nat} {q : WNDPROC}
    (h : ThreadAt st i hwnd s e q Pc.done) :
    ThreadAt (stepThread st i) i hwnd s e q Pc.done := by
  obtain ⟨t, w, ht, hh, hs, he, hpc, hw, hwe, hwq, hst⟩ := h
  have hlt : i < st.threads.length := by
    obtain ⟨hlt, _⟩ := List.getElem?_eq_some.mp ht
    exact hlt
  simp only [stepThread, ht, Thread.step, hpc]
  exact ⟨t, w, List.getElem?_set_self hlt, hh, hs, he, hpc, hw, hwe, hwq, hst⟩

theorem steps_done {st : State} {i : Nat} {hwnd : HWND} {s e : Nat} {q : WNDPROC} (k : Nat)
    (h : ThreadAt st i hwnd s e q Pc.done) :
    ThreadAt (stepsThread st i k) i hwnd s e q Pc.done := by
  induction k generalizing st with
  | zero => exact h
  | succ k ih => exact ih (step_done h)

theorem steps_looping {st : State} {i : Nat} {hwnd : HWND} {s e : Nat}
    {procs : List (HWND × WNDPROC)} (k : Nat) (h : Looping st i hwnd s e procs) :
    Looping (stepsThread st i k) i hwnd s e procs := by
  induction k generalizing st with
  | zero => exact h
  | succ k ih =>
    apply ih
    obtain ⟨hpc | hpc, hrec, hprocs⟩ := h
    · obtain ⟨h1, h2, h3⟩ := step_body hpc
      exact ⟨Or.inr h1, by rw [h2]; exact hrec, by rw [h3]; exact hprocs⟩
    · obtain ⟨h1, h2, h3⟩ := step_check_active hpc hrec
      exact ⟨Or.inl h1, by rw [h2]; exact hrec, by rw [h3]; exact hprocs⟩

/-! ## Facts about `CleanupResources` -/

theorem restoreWndProcs_untouched (procs : List (HWND × WNDPROC)) (ws : Desktop) (h : HWND)
    (hfree : Map.find procs h = none) : restoreWndProcs procs ws h = ws h := by
  induction procs generalizing ws with
  | nil => rfl
  | cons p rest ih =>
    obtain ⟨k1, v1⟩ := p
    have hk : ¬ k1 = h := by
      intro hk
      simp [Map.find, hk] at hfree
    have hrest : Map.find rest h = none := by
      simpa [Map.find, hk] using hfree
    simp only [restoreWndProcs, List.foldl_cons]
    have ih1 := ih (if IsWindow ws k1 then SetWindowLongPtr_WNDPROC ws k1 v1 else ws) hrest
    simp only [restoreWndProcs] at ih1
    rw [ih1]
    split
    · exact SetWindowLongPtr_WNDPROC_other _ (fun e => hk e.symm)
    · rfl

theorem restoreWndProcs_assign (procs : List (HWND × WNDPROC)) (ws : Desktop) (h : HWND)
    (p : WNDPROC) (w : Window) (hfree : Map.find procs h = none) (hw : ws h = some w) :
    restoreWndProcs (Map.assign procs h p) ws h = some { w with wndProc := p } := by
  have hone : ∀ (ws : Desktop) (rest : List (HWND × WNDPROC)), ws h = some w →
      Map.find rest h = none →
      restoreWndProcs ((h, p) :: rest) ws h = some { w with wndProc := p } := by
    intro ws rest hw hrest
    have e := restoreWndProcs_untouched rest
      (if IsWindow ws h then SetWindowLongPtr_WNDPROC ws h p else ws) h hrest
    simp only [restoreWndProcs, List.foldl_cons] at e ⊢
    rw [e]
    simp [IsWindow, hw, SetWindowLongPtr_WNDPROC]
  induction procs generalizing ws with
  | nil => exact hone ws [] hw rfl
  | cons q rest ih =>
    obtain ⟨k1, v1⟩ := q
    have hk : ¬ k1 = h := by
      intro hk
      simp [Map.find, hk] at hfree
    have hk2 : ¬ h = k1 := fun e => hk e.symm
    have hrest : Map.find rest h = none := by
      simpa [Map.find, hk] using hfree
    unfold Map.assign
    by_cases hlt : h < k1
    · rw [if_pos hlt]
      exact hone ws _ hw hfree
    · rw [if_neg hlt, if_neg hk2]
      have hw1 : (if IsWindow ws k1 then SetWindowLongPtr_WNDPROC ws k1 v1 else ws) h = some w := by
        split
        · rw [SetWindowLongPtr_WNDPROC_other _ hk2]
          exact hw
        · exact hw
      have ih1 := ih (if IsWindow ws k1 then SetWindowLongPtr_WNDPROC ws k1 v1 else ws) hrest hw1
      simp only [restoreWndProcs, List.foldl_cons] at ih1 ⊢
      exact ih1

theorem CleanupResources_fields (st : State) :
    (CleanupResources st).windows = restoreWndProcs st.g_originalWndProcs st.windows ∧
    (CleanupResources st).g_originalWndProcs = [] ∧
    (CleanupResources st).g_windowSizes = [] ∧
    (CleanupResources st).g_messageHook = 0 ∧
    (CleanupResources st).g_cbtHook = 0 ∧
    (CleanupResources st).threads = st.threads ∧
    (CleanupResources st).g_isDragging = st.g_isDragging ∧
    (CleanupResources st).g_dragStart = st.g_dragStart ∧
    (CleanupResources st).capture = st.capture ∧
    (CleanupResources st).painted = st.painted ∧
    (CleanupResources st).screenWidth = st.screenWidth ∧
    (CleanupResources st).screenHeight = st.screenHeight := by
  unfold CleanupResources
  by_cases h1 : st.g_messageHook = 0 <;> by_cases h2 : st.g_cbtHook = 0 <;> simp [h1, h2]

theorem cleanup_threadAt {st : State} {i : Nat} {hwnd : HWND} {s e : Nat} {q p : WNDPROC}
    {pc : Pc} {procs : List (HWND × WNDPROC)} (h : ThreadAt st i hwnd s e q pc)
    (hprocs : st.g_originalWndProcs = Map.assign procs hwnd p)
    (hfree : Map.find procs hwnd = none) :
    ThreadAt (CleanupResources st) i hwnd s e p pc ∧
    Map.find (CleanupResources st).g_windowSizes hwnd = none := by
  obtain ⟨t, w, ht, hh, hs, he, hpc, hw, hwe, hwq, hst⟩ := h
  obtain ⟨f1, _, f3, _, _, f6, _⟩ := CleanupResources_fields st
  refine ⟨⟨t, { w with wndProc := p }, ?_, hh, hs, he, hpc, ?_, hwe, rfl, hst⟩, ?_⟩
  · rw [f6]
    exact ht
  · rw [f1, hprocs]
    exact restoreWndProcs_assign procs st.windows hwnd p w hfree hw
  · rw [f3]
    rfl

theorem exit_steps {st : State} {i : Nat} {hwnd : HWND} {s e : Nat} {q : WNDPROC} (m : Nat)
    (h : ThreadAt st i hwnd s e q Pc.body ∨ ThreadAt st i hwnd s e q Pc.check)
    (hrec : Map.find st.g_windowSizes hwnd = none) (hm : 3 ≤ m) :
    ThreadAt (stepsThread st i m) i hwnd s e q Pc.done := by
  rcases h with h | h
  · obtain ⟨h1, h2, _⟩ := step_body h
    have h3 := step_check_stop h1 (by rw [h2]; exact hrec)
    have h4 := step_restore h3
    have em : m = 3 + (m - 3) := by omega
    rw [em, stepsThread_add]
    exact steps_done _ h4
  · have h3 := step_check_stop h hrec
    have h4 := step_restore h3
    have em : m = 2 + (m - 2) := by omega
    rw [em, stepsThread_add]
    exact steps_done _ h4

theorem step_start {st : State} {i : Nat} {t : Thread} {w : Window}
    (ht : st.threads[i]? = some t) (hpc : t.pc = Pc.start)
    (hw : st.windows t.hwnd = some w) (hq : w.wndProc = WNDPROC.CustomWindowProc) :
    Looping (stepThread st i) i t.hwnd w.style w.exStyle st.g_originalWndProcs := by
  obtain ⟨⟨w1, hw1, e1, e2⟩, hthread, hthr, hsz, hpr⟩ := start_effect st t w hw
  have hlt : i < st.threads.length := by
    obtain ⟨hlt, _⟩ := List.getElem?_eq_some.mp ht
    exact hlt
  have hstep : stepThread st i
      = { (ForceWindowSizeThread.start st t).1 with
          threads := (ForceWindowSizeThread.start st t).1.threads.set i
            (ForceWindowSizeThread.start st t).2 } := by
    simp only [stepThread, ht, Thread.step, hpc]
  rw [hstep]
  refine ⟨Or.inl ⟨(ForceWindowSizeThread.start st t).2, w1, ?_, ?_, ?_, ?_, ?_, hw1, e1, ?_, ?_⟩,
    ⟨_, hsz, rfl⟩, hpr⟩
  · simp only [hthr]
    exact List.getElem?_set_self hlt
  · rw [hthread]
  · rw [hthread]
  · rw [hthread]
  · rw [hthread]
  · rw [e2, hq]
  · intro hc
    cases hc

theorem start_looping (st : State) (hwnd : HWND) (width height : Int)
    (messageHookAnswer cbtHookAnswer : HHOOK) (w : Window)
    (hnz : hwnd ≠ 0) (hwin : st.windows hwnd = some w) :
    Looping
      (stepThread (ForceWindowSize st hwnd width height messageHookAnswer cbtHookAnswer).2
        st.threads.length)
      st.threads.length hwnd w.style w.exStyle
      (Map.assign st.g_originalWndProcs hwnd w.wndProc) := by
  have hok : ¬ (hwnd = 0 ∨ IsWindow st.windows hwnd = false) := by
    simp [IsWindow, hwin, hnz]
  have hthreads : (ForceWindowSize st hwnd width height messageHookAnswer cbtHookAnswer).2.threads
      = st.threads ++ [Thread.spawn hwnd width height] := by
    simp [ForceWindowSize, hok]
  have hprocs :
      (ForceWindowSize st hwnd width height messageHookAnswer cbtHookAnswer).2.g_originalWndProcs
        = Map.assign st.g_originalWndProcs hwnd w.wndProc := by
    simp [ForceWindowSize, hok, GetWindowLongPtr_WNDPROC, hwin]
  have hwin1 : (ForceWindowSize st hwnd width height messageHookAnswer cbtHookAnswer).2.windows
      (Thread.spawn hwnd width height).hwnd
        = some { w with wndProc := WNDPROC.CustomWindowProc } := by
    simp only [ForceWindowSize, if_neg hok, Thread.spawn]
    exact SetWindowLongPtr_WNDPROC_same _ hwin
  have hget : (ForceWindowSize st hwnd width height messageHookAnswer cbtHookAnswer).2.threads[
      st.threads.length]? = some (Thread.spawn hwnd width height) := by
    rw [hthreads]
    exact List.getElem?_concat_length _ _
  have h := step_start hget rfl hwin1 rfl
  rw [hprocs] at h
  exact h

/-! ## Facts about forwarding -/

theorem forward_forwarded (host : Host) (st : State) (target : Target) (hwnd : HWND)
    (msg : UINT) (wParam : WPARAM) (lParam : LParam) :
    (forward host st target hwnd msg wParam lParam).forwarded
      = some { target := target, msg := msg, wParam := wParam, lParam := lParam } := by
  unfold forward
  split <;> rfl

theorem forward_returning (host : Host) (st : State) (target : Target) (hwnd : HWND)
    (msg : UINT) (wParam : WPARAM) (lParam : LParam)
    (h : target ≠ Target.original WNDPROC.CustomWindowProc) :
    forward host st target hwnd msg wParam lParam
      = { result := ((host.behaviour target).call hwnd msg wParam lParam st.windows).1,
          lParam := ((host.behaviour target).call hwnd msg wParam lParam st.windows).2.1,
          state := { st with
            windows := ((host.behaviour target).call hwnd msg wParam lParam st.windows).2.2 },
          forwarded := some { target := target, msg := msg, wParam := wParam,
                              lParam := lParam },
          returns := true } := by
  unfold forward
  rw [if_neg h]

theorem forward_blocked (host : Host) (st : State) (hwnd : HWND) (msg : UINT)
    (wParam : WPARAM) (lParam : LParam) :
    forward host st (Target.original WNDPROC.CustomWindowProc) hwnd msg wParam lParam
      = { result := 0, lParam := lParam, state := st,
          forwarded := some { target := Target.original WNDPROC.CustomWindowProc, msg := msg,
                              wParam := wParam, lParam := lParam },
          returns := false } := by
  unfold forward
  rw [if_pos rfl]

/-! ## Facts about the drag gesture -/

theorem placeRect_nosize (r : RECT) (x y cx cy : Int) :
    placeRect r x y cx cy (SWP_NOSIZE ||| SWP_NOZORDER)
      = { left := x, top := y, right := iadd x (isub r.right r.left),
          bottom := iadd y (isub r.bottom r.top) } := by
  have h1 : (SWP_NOSIZE ||| SWP_NOZORDER) &&& SWP_NOMOVE = 0 := by decide
  have h2 : (SWP_NOSIZE ||| SWP_NOZORDER) &&& SWP_NOSIZE ≠ 0 := by decide
  simp [placeRect, h1, h2]

theorem deliver_move (host : Host) {st : State} {hwnd : HWND} {p : WNDPROC} {w : Window}
    (ev : PointerEvent) (hproc : Map.find st.g_originalWndProcs hwnd = some p)
    (hdrag : st.g_isDragging = true) (hw : st.windows hwnd = some w) :
    ∃ r, deliver host st hwnd WM_MOUSEMOVE ev = some r ∧
      r.state.g_originalWndProcs = st.g_originalWndProcs ∧
      r.state.g_isDragging = true ∧ r.state.g_dragStart = ev.cursor ∧
      r.state.windows hwnd = some { w with rect :=
        { left := iadd w.rect.left (isub ev.cursor.x st.g_dragStart.x),
          top := iadd w.rect.top (isub ev.cursor.y st.g_dragStart.y),
          right := iadd (iadd w.rect.left (isub ev.cursor.x st.g_dragStart.x))
            (isub w.rect.right w.rect.left),
          bottom := iadd (iadd w.rect.top (isub ev.cursor.y st.g_dragStart.y))
            (isub w.rect.bottom w.rect.top) } } := by
  refine ⟨{ result := 0, lParam := ev.lParam,
            state := { st with
              g_dragStart := ev.cursor,
              windows := SetWindowPos st.windows hwnd
                (iadd w.rect.left (isub ev.cursor.x st.g_dragStart.x))
                (iadd w.rect.top (isub ev.cursor.y st.g_dragStart.y)) 0 0
                (SWP_NOSIZE ||| SWP_NOZORDER) },
            forwarded := none, returns := true }, ?_, rfl, hdrag, rfl, ?_⟩
  · simp [deliver, CustomWindowProc, CustomWindowProc.mouseMove, hproc, hdrag, GetWindowRect, hw,
      WM_MOUSEMOVE, WM_NCCALCSIZE, WM_NCPAINT, WM_NCLBUTTONDOWN]
  · simp only []
    rw [SetWindowPos_same _ _ _ _ _ hw, placeRect_nosize]

theorem deliverMoves_drag (host : Host) (hwnd : HWND) (p : WNDPROC) (moves : List PointerEvent) :
    ∀ (st : State) (w : Window), Map.find st.g_originalWndProcs hwnd = some p →
      st.g_isDragging = true → st.windows hwnd = some w →
      ∃ st1 w1, deliverMoves host hwnd st moves = some st1 ∧
        Map.find st1.g_originalWndProcs hwnd = some p ∧ st1.g_isDragging = true ∧
        st1.windows hwnd = some w1 ∧
        wrap32 w1.rect.left
          = wrap32 (w.rect.left + ((lastCursor st.g_dragStart moves).x - st.g_dragStart.x)) ∧
        wrap32 w1.rect.top
          = wrap32 (w.rect.top + ((lastCursor st.g_dragStart moves).y - st.g_dragStart.y)) ∧
        (isInt32 w.rect.left → isInt32 w1.rect.left) ∧
        (isInt32 w.rect.top → isInt32 w1.rect.top) ∧
        isub w1.rect.right w1.rect.left = isub w.rect.right w.rect.left ∧
        isub w1.rect.bottom w1.rect.top = isub w.rect.bottom w.rect.top := by
  induction moves with
  | nil =>
    intro st w hproc hdrag hw
    exact ⟨st, w, rfl, hproc, hdrag, hw, by simp [lastCursor], by simp [lastCursor],
      fun h => h, fun h => h, rfl, rfl⟩
  | cons ev rest ih =>
    intro st w hproc hdrag hw
    obtain ⟨r, hstep, hp0, hd0, hc0, hw0⟩ := deliver_move host ev hproc hdrag hw
    obtain ⟨st1, w1, hrun, hp1, hd1, hw1, hl, ht, hil, hit, hwd, hht⟩ :=
      ih r.state _ (by rw [hp0]; exact hproc) hd0 hw0
    rw [hc0] at hl ht
    refine ⟨st1, w1, ?_, hp1, hd1, hw1, ?_, ?_, ?_, ?_, ?_, ?_⟩
    · simp only [deliverMoves, hstep]
      exact hrun
    · rw [hl]
      simp only [lastCursor, iadd, isub, wrap32]
      omega
    · rw [ht]
      simp only [lastCursor, iadd, isub, wrap32]
      omega
    · intro _
      exact hil (isInt32_wrap32 _)
    · intro _
      exact hit (isInt32_wrap32 _)
    · rw [hwd]
      simp only [iadd, isub, wrap32]
      omega
    · rw [hht]
      simp only [iadd, isub, wrap32]
      omega

/-! ## Facts about every thread step -/

theorem Map.assign_assign {V : Type} (m : List (HWND × V)) (k : HWND) (v v2 : V) :
    Map.assign (Map.assign m k v) k v2 = Map.assign m k v2 := by
  induction m with
  | nil => simp [Map.assign]
  | cons p rest ih =>
    obtain ⟨k1, v1⟩ := p
    by_cases h1 : k < k1
    · simp [Map.assign, h1]
    · by_cases h2 : k = k1
      · subst h2
        simp [Map.assign]
      · simp [Map.assign, h1, h2, ih]

theorem SetWindowLong_STYLE_wndProc (ws : Desktop) (k : HWND) (v : Nat) (j : HWND) :
    (SetWindowLong_STYLE ws k v j).map (fun w => w.wndProc)
      = (ws j).map (fun w => w.wndProc) := by
  unfold SetWindowLong_STYLE
  cases hk : ws k with
  | none => rfl
  | some w =>
    by_cases hj : j = k
    · subst hj
      simp [hk]
    · simp [Function.update, hj]

theorem SetWindowLong_EXSTYLE_wndProc (ws : Desktop) (k : HWND) (v : Nat) (j : HWND) :
    (SetWindowLong_EXSTYLE ws k v j).map (fun w => w.wndProc)
      = (ws j).map (fun w => w.wndProc) := by
  unfold SetWindowLong_EXSTYLE
  cases hk : ws k with
  | none => rfl
  | some w =>
    by_cases hj : j = k
    · subst hj
      simp [hk]
    · simp [Function.update, hj]

theorem SetWindowPos_wndProc (ws : Desktop) (k : HWND) (x y cx cy : Int) (flags : UINT)
    (j : HWND) :
    (SetWindowPos ws k x y cx cy flags j).map (fun w => w.wndProc)
      = (ws j).map (fun w => w.wndProc) := by
  unfold SetWindowPos
  cases hk : ws k with
  | none => rfl
  | some w =>
    by_cases hj : j = k
    · subst hj
      simp [hk]
    · simp [Function.update, hj]

theorem Thread.step_effect (st : State) (t : Thread) :
    (Thread.step st t).1.g_originalWndProcs = st.g_originalWndProcs ∧
    (Thread.step st t).1.threads = st.threads ∧
    (Thread.step st t).1.g_windowSizes
      = (if t.pc = Pc.start then
          Map.assign st.g_windowSizes t.hwnd
            { width := t.width, height := t.height, keepForcing := true }
        else st.g_windowSizes) ∧
    (Thread.step st t).2.pc ≠ Pc.start ∧
    (Thread.step st t).2.hwnd = t.hwnd ∧
    (∀ j, ((Thread.step st t).1.windows j).map (fun w => w.wndProc)
      = (st.windows j).map (fun w => w.wndProc)) := by
  unfold Thread.step
  cases hpc : t.pc with
  | start =>
    refine ⟨rfl, rfl, by simp [ForceWindowSizeThread.start], by simp [ForceWindowSizeThread.start],
      rfl, ?_⟩
    intro j
    simp only [ForceWindowSizeThread.start, CenterWindowOnScreen, SetWindowPos_wndProc,
      SetWindowLong_EXSTYLE_wndProc, SetWindowLong_STYLE_wndProc]
  | body =>
    simp only [ForceWindowSizeThread.body]
    cases GetWindowRect st.windows t.hwnd with
    | none => simp
    | some rect =>
      simp only []
      split
      · refine ⟨by simp, by simp, by simp, by simp, by simp, ?_⟩
        intro j
        simp only [SetWindowPos_wndProc, SetWindowLong_STYLE_wndProc]
      · simp
  | check =>
    refine ⟨rfl, rfl, by simp, ?_, rfl, fun _ => rfl⟩
    simp only []
    split <;> simp
  | restore =>
    refine ⟨rfl, rfl, by simp [ForceWindowSizeThread.restore], by simp, rfl, ?_⟩
    intro j
    simp only [ForceWindowSizeThread.restore, SetWindowLong_EXSTYLE_wndProc,
      SetWindowLong_STYLE_wndProc]
  | done =>
    refine ⟨rfl, rfl, by simp, ?_, rfl, fun _ => rfl⟩
    simp [hpc]

theorem stepThread_effect (st : State) (i : Nat) :
    (stepThread st i).g_originalWndProcs = st.g_originalWndProcs ∧
    (stepThread st i).threads.length = st.threads.length ∧
    (∀ j, j ≠ i → (stepThread st i).threads[j]? = st.threads[j]?) ∧
    (∀ j, ((stepThread st i).windows j).map (fun w => w.wndProc)
      = (st.windows j).map (fun w => w.wndProc)) := by
  unfold stepThread
  cases ht : st.threads[i]? with
  | none => exact ⟨rfl, rfl, fun _ _ => rfl, fun _ => rfl⟩
  | some t =>
    obtain ⟨e1, e2, _, _, _, e6⟩ := Thread.step_effect st t
    refine ⟨e1, ?_, ?_, e6⟩
    · simp [e2]
    · intro j hj
      simp only [e2]
      exact List.getElem?_set_ne (fun e => hj e.symm)

theorem stepThread_thread (st : State) (i : Nat) (t : Thread) (ht : st.threads[i]? = some t) :
    (∃ t1, (stepThread st i).threads[i]? = some t1 ∧ t1.pc ≠ Pc.start ∧ t1.hwnd = t.hwnd) ∧
    (stepThread st i).g_windowSizes
      = (if t.pc = Pc.start then
          Map.assign st.g_windowSizes t.hwnd
            { width := t.width, height := t.height, keepForcing := true }
        else st.g_windowSizes) := by
  have hlt : i < st.threads.length := by
    obtain ⟨hlt, _⟩ := List.getElem?_eq_some.mp ht
    exact hlt
  obtain ⟨_, e2, e3, e4, e5, _⟩ := Thread.step_effect st t
  simp only [stepThread, ht]
  refine ⟨⟨(Thread.step st t).2, ?_, e4, e5⟩, e3⟩
  simp only [e2]
  exact List.getElem?_set_self hlt

theorem stepThread_absent (st : State) (i : Nat) (ht : st.threads[i]? = none) :
    stepThread st i = st := by
  simp [stepThread, ht]

theorem stepsThread_effect (st : State) (i : Nat) (k : Nat) :
    (stepsThread st i k).g_originalWndProcs = st.g_originalWndProcs ∧
    (stepsThread st i k).threads.length = st.threads.length ∧
    (∀ j, j ≠ i → (stepsThread st i k).threads[j]? = st.threads[j]?) ∧
    (∀ j, ((stepsThread st i k).windows j).map (fun w => w.wndProc)
      = (st.windows j).map (fun w => w.wndProc)) := by
  induction k generalizing st with
  | zero => exact ⟨rfl, rfl, fun _ _ => rfl, fun _ => rfl⟩
  | succ k ih =>
    obtain ⟨a1, a2, a3, a4⟩ := stepThread_effect st i
    obtain ⟨b1, b2, b3, b4⟩ := ih (stepThread st i)
    simp only [stepsThread]
    refine ⟨b1.trans a1, b2.trans a2, fun j hj => (b3 j hj).trans (a3 j hj),
      fun j => (b4 j).trans (a4 j)⟩

theorem stepsThread_started (st : State) (i : Nat) (k : Nat) (t : Thread)
    (ht : st.threads[i]? = some t) (hpc : t.pc ≠ Pc.start) :
    (∃ t1, (stepsThread st i k).threads[i]? = some t1 ∧ t1.pc ≠ Pc.start ∧ t1.hwnd = t.hwnd) ∧
    (stepsThread st i k).g_windowSizes = st.g_windowSizes := by
  induction k generalizing st t with
  | zero => exact ⟨⟨t, ht, hpc, rfl⟩, rfl⟩
  | succ k ih =>
    obtain ⟨⟨t1, ht1, hpc1, hh1⟩, hsz⟩ := stepThread_thread st i t ht
    rw [if_neg hpc] at hsz
    obtain ⟨⟨t2, ht2, hpc2, hh2⟩, hsz2⟩ := ih (stepThread st i) t1 ht1 hpc1
    simp only [stepsThread]
    exact ⟨⟨t2, ht2, hpc2, hh2.trans hh1⟩, hsz2.trans hsz⟩

theorem ForceWindowSize_effect (st : State) (hwnd : HWND) (width height : Int)
    (messageHookAnswer cbtHookAnswer : HHOOK) (w : Window)
    (hnz : hwnd ≠ 0) (hwin : st.windows hwnd = some w) :
    (ForceWindowSize st hwnd width height messageHookAnswer cbtHookAnswer).1 = true ∧
    (ForceWindowSize st hwnd width height messageHookAnswer cbtHookAnswer).2.g_originalWndProcs
      = Map.assign st.g_originalWndProcs hwnd w.wndProc ∧
    (ForceWindowSize st hwnd width height messageHookAnswer cbtHookAnswer).2.g_windowSizes
      = st.g_windowSizes ∧
    (ForceWindowSize st hwnd width height messageHookAnswer cbtHookAnswer).2.threads
      = st.threads ++ [Thread.spawn hwnd width height] ∧
    (ForceWindowSize st hwnd width height messageHookAnswer cbtHookAnswer).2.windows hwnd
      = some { w with wndProc := WNDPROC.CustomWindowProc } := by
  have hok : ¬ (hwnd = 0 ∨ IsWindow st.windows hwnd = false) := by
    simp [IsWindow, hwin, hnz]
  refine ⟨?_, ?_, ?_, ?_, ?_⟩
  · simp [ForceWindowSize, hok]
  · simp [ForceWindowSize, hok, GetWindowLongPtr_WNDPROC, hwin]
  · simp [ForceWindowSize, hok]
  · simp [ForceWindowSize, hok]
  · simp only [ForceWindowSize, if_neg hok]
    exact SetWindowLongPtr_WNDPROC_same _ hwin

theorem window_of_wndProc {ws : Desktop} {h : HWND} {q : WNDPROC}
    (hq : (ws h).map (fun w => w.wndProc) = some q) : ∃ w, ws h = some w ∧ w.wndProc = q := by
  cases hw : ws h with
  | none => simp [hw] at hq
  | some w =>
    refine ⟨w, rfl, ?_⟩
    simpa [hw] using hq

/-! ## Facts about interleavings -/

theorem Map.find_assign_isSome {V : Type} (m : List (HWND × V)) (k j : HWND) (v : V)
    (h : (Map.find m j).isSome = true) : (Map.find (Map.assign m k v) j).isSome = true := by
  by_cases hj : j = k
  · subst hj
    rw [Map.find_assign_self]
    rfl
  · rw [Map.find_assign_other m k j v hj]
    exact h

theorem stepThread_mem (st : State) (i : Nat) (t1 : Thread)
    (h : t1 ∈ (stepThread st i).threads) : t1 ∈ st.threads ∨ t1.pc ≠ Pc.start := by
  obtain ⟨j, hj⟩ := List.mem_iff_getElem?.mp h
  by_cases hji : j = i
  · subst hji
    cases ht : st.threads[j]? with
    | none =>
      rw [stepThread_absent st j ht] at hj
      rw [ht] at hj
      cases hj
    | some t =>
      obtain ⟨⟨t2, ht2, hpc2, _⟩, _⟩ := stepThread_thread st j t ht
      rw [ht2] at hj
      cases hj
      exact Or.inr hpc2
  · obtain ⟨_, _, e3, _⟩ := stepThread_effect st i
    rw [e3 j hji] at hj
    exact Or.inl (List.getElem?_mem hj)

theorem stepThread_sizes (st : State) (i : Nat) :
    (stepThread st i).g_windowSizes = st.g_windowSizes ∨
    ∃ t ∈ st.threads, t.pc = Pc.start ∧
      (stepThread st i).g_windowSizes
        = Map.assign st.g_windowSizes t.hwnd
            { width := t.width, height := t.height, keepForcing := true } := by
  cases ht : st.threads[i]? with
  | none =>
    rw [stepThread_absent st i ht]
    exact Or.inl rfl
  | some t =>
    obtain ⟨_, hsz⟩ := stepThread_thread st i t ht
    by_cases hpc : t.pc = Pc.start
    · rw [if_pos hpc] at hsz
      exact Or.inr ⟨t, List.getElem?_mem ht, hpc, hsz⟩
    · rw [if_neg hpc] at hsz
      exact Or.inl hsz

theorem guarded_invariant (init st : State) (hinit : EmptyRegistry init)
    (hreach : Reachable GuardedStep init st) :
    RegistryInv st ∧
    (∀ t ∈ st.threads, t.pc = Pc.start →
      (Map.find st.g_originalWndProcs t.hwnd).isSome = true) := by
  induction hreach with
  | start =>
    obtain ⟨h1, h2, h3⟩ := hinit
    constructor
    · intro h hh
      rw [h2] at hh
      cases hh
    · intro t ht
      rw [h3] at ht
      cases ht
  | @next s s1 _ hstep ih =>
    obtain ⟨inv1, inv2⟩ := ih
    cases hstep with
    | forceWindowSize hwnd width height a b =>
      by_cases hbad : hwnd = 0 ∨ IsWindow s.windows hwnd = false
      · have e : (ForceWindowSize s hwnd width height a b).2 = s := by
          simp [ForceWindowSize, hbad]
        rw [e]
        exact ⟨inv1, inv2⟩
      · have hnz : hwnd ≠ 0 := fun e => hbad (Or.inl e)
        obtain ⟨w, hw⟩ : ∃ w, s.windows hwnd = some w := by
          cases hw : s.windows hwnd with
          | none => exact absurd (Or.inr (by simp [IsWindow, hw])) hbad
          | some w => exact ⟨w, rfl⟩
        obtain ⟨_, f2, f3, f4, _⟩ := ForceWindowSize_effect s hwnd width height a b w hnz hw
        constructor
        · intro h hh
          rw [f3] at hh
          rw [f2]
          exact Map.find_assign_isSome _ _ _ _ (inv1 h hh)
        · intro t ht hpc
          rw [f4] at ht
          rw [f2]
          rcases List.mem_append.mp ht with hold | hnew
          · exact Map.find_assign_isSome _ _ _ _ (inv2 t hold hpc)
          · have e : t = Thread.spawn hwnd width height := by simpa using hnew
            rw [e]
            simp only [Thread.spawn]
            rw [Map.find_assign_self]
            rfl
    | thread i =>
      obtain ⟨e1, _, _, _⟩ := stepThread_effect s i
      constructor
      · intro h hh
        rw [e1]
        rcases stepThread_sizes s i with hsame | ⟨t, ht, hpc, hsz⟩
        · rw [hsame] at hh
          exact inv1 h hh
        · rw [hsz] at hh
          by_cases hht : h = t.hwnd
          · rw [hht]
            exact inv2 t ht hpc
          · rw [Map.find_assign_other _ _ _ _ hht] at hh
            exact inv1 h hh
      · intro t ht hpc
        rw [e1]
        rcases stepThread_mem s i t ht with hold | hstarted
        · exact inv2 t hold hpc
        · exact absurd hpc hstarted
    | cleanup hready =>
      obtain ⟨_, _, f3, _, _, f6, _⟩ := CleanupResources_fields s
      constructor
      · intro h hh
        rw [f3] at hh
        cases hh
      · intro t ht hpc
        rw [f6] at ht
        exact absurd hpc (hready t ht)

/-! ## Facts about the style adjustment -/

theorem testBit_word_high {c i : Nat} (hc : c < 4294967296) (hi : 32 ≤ i) :
    c.testBit i = false := by
  apply Nat.testBit_lt_two_pow
  calc c < 2 ^ 32 := by simpa using hc
    _ ≤ 2 ^ i := Nat.pow_le_pow_right (by decide) hi

theorem strip_eq (s : Nat) : strip s = (s &&& 0xFFF8FFFF) ||| 0x00C00000 := by
  have h : not32 (WS_THICKFRAME ||| WS_MAXIMIZEBOX ||| WS_MINIMIZEBOX) = 0xFFF8FFFF := by decide
  simp only [strip, h, WS_CAPTION]

theorem testBit_strip (s i : Nat) :
    (strip s).testBit i
      = ((s.testBit i && (0xFFF8FFFF : Nat).testBit i) || (0x00C00000 : Nat).testBit i) := by
  rw [strip_eq, Nat.testBit_or, Nat.testBit_and]

theorem const_bits_high {i : Nat} (hi : 32 ≤ i) :
    (0xFFF8FFFF : Nat).testBit i = false ∧ (0x00C00000 : Nat).testBit i = false ∧
    WS_THICKFRAME.testBit i = false ∧ WS_MAXIMIZEBOX.testBit i = false ∧
    WS_MINIMIZEBOX.testBit i = false ∧ WS_CAPTION.testBit i = false :=
  ⟨testBit_word_high (by decide) hi, testBit_word_high (by decide) hi,
    testBit_word_high (by decide) hi, testBit_word_high (by decide) hi,
    testBit_word_high (by decide) hi, testBit_word_high (by decide) hi⟩

theorem strip_and_mask (s m : Nat) (hm : m < 4294967296)
    (hbits : ∀ i, i < 32 → ∀ b : Bool,
      (((b && (0xFFF8FFFF : Nat).testBit i) || (0x00C00000 : Nat).testBit i) && m.testBit i)
        = ((0x00C00000 : Nat) &&& m).testBit i) :
    strip s &&& m = 0x00C00000 &&& m := by
  apply Nat.eq_of_testBit_eq
  intro i
  by_cases hi : i < 32
  · rw [Nat.testBit_and, testBit_strip]
    exact hbits i hi _
  · have hm1 : m.testBit i = false := testBit_word_high hm (Nat.le_of_not_lt hi)
    simp [Nat.testBit_and, hm1]

/-! ## The claims -/

/-- C1: one iteration of the enforcement loop of a thread started on a window of
style `s0`. If the outer width or height of the window differs from the desired
one, then afterwards the outer size is the desired size, the top-left corner is
unchanged and the style is the stripped style `strip s0`; if the outer size
already is the desired one, the iteration changes nothing. -/
theorem C1_iteration_forces_size (st0 st : State) (hwnd : HWND) (width height : Int)
    (w0 w : Window) (h0 : st0.windows hwnd = some w0) (hwin : st.windows hwnd = some w)
    (hwidth : isInt32 width) (hheight : isInt32 height) :
    let t := (ForceWindowSizeThread.start st0 (Thread.spawn hwnd width height)).2
    let st1 := (ForceWindowSizeThread.iteration st t).1
    (isub w.rect.right w.rect.left ≠ width ∨ isub w.rect.bottom w.rect.top ≠ height →
      ∃ w1, st1.windows hwnd = some w1 ∧
        isub w1.rect.right w1.rect.left = width ∧
        isub w1.rect.bottom w1.rect.top = height ∧
        w1.rect.left = w.rect.left ∧ w1.rect.top = w.rect.top ∧
        w1.style = strip w0.style) ∧
    (isub w.rect.right w.rect.left = width ∧ isub w.rect.bottom w.rect.top = height →
      st1 = st) := by
  intro t st1
  have hstyle : t.newStyle = strip w0.style := by
    simp [t, ForceWindowSizeThread.start, Thread.spawn, GetWindowLong_STYLE, h0]
  have hth : t.hwnd = hwnd ∧ t.width = width ∧ t.height = height := by
    simp [t, ForceWindowSizeThread.start, Thread.spawn]
  obtain ⟨e1, e2, e3⟩ := hth
  constructor
  · intro hne
    have hflags1 : (SWP_NOZORDER ||| SWP_NOACTIVATE ||| SWP_ASYNCWINDOWPOS) &&& SWP_NOMOVE = 0 := by
      decide
    have hflags2 : (SWP_NOZORDER ||| SWP_NOACTIVATE ||| SWP_ASYNCWINDOWPOS) &&& SWP_NOSIZE = 0 := by
      decide
    have hbody : st1.windows hwnd
        = some { w with
            style := strip w0.style,
            rect := { left := w.rect.left, top := w.rect.top,
                      right := iadd w.rect.left width, bottom := iadd w.rect.top height } } := by
      simp only [st1, ForceWindowSizeThread.iteration, ForceWindowSizeThread.body, GetWindowRect,
        e1, e2, e3, hwin, Option.map_some']
      rw [if_pos hne]
      simp only []
      rw [SetWindowPos_same _ _ _ _ _ (SetWindowLong_STYLE_same _ hwin),
        placeRect_move_size _ _ _ _ _ _ hflags1 hflags2, hstyle]
    refine ⟨_, hbody, ?_, ?_, rfl, rfl, rfl⟩
    · simp only [isub_iadd_cancel, wrap32_of_isInt32 hwidth]
    · simp only [isub_iadd_cancel, wrap32_of_isInt32 hheight]
  · intro heq
    have hno : ¬ (isub w.rect.right w.rect.left ≠ width ∨ isub w.rect.bottom w.rect.top ≠ height) := by
      simp [heq.1, heq.2]
    simp only [st1, ForceWindowSizeThread.iteration, ForceWindowSizeThread.body, GetWindowRect,
      e1, e2, e3, hwin, Option.map_some']
    rw [if_neg hno]

/-- C1 at the 400 by 300 window of `demoDesktop` with desired size 800 by 600. -/
theorem C1_iteration_forces_size_witness :
    isInt32 800 ∧ isInt32 600 ∧
    ∃ w1,
      (ForceWindowSizeThread.iteration demoState
        (ForceWindowSizeThread.start demoState (Thread.spawn 1 800 600)).2).1.windows 1 = some w1 ∧
      isub w1.rect.right w1.rect.left = 800 ∧ isub w1.rect.bottom w1.rect.top = 600 ∧
      w1.rect.left = 100 ∧ w1.rect.top = 100 ∧ w1.style = strip 0x00CF0000 :=
  ⟨by decide, by decide,
    (C1_iteration_forces_size demoState demoState 1 800 600 _ _ rfl rfl
      (by decide) (by decide)).1 (by decide)⟩

/-- C2: for a handle with a record (width, height) in the geometry map, a
`WM_GETMINMAXINFO` query handled by `CustomWindowProc` (handle present in the
original-procedure map) or by `MessageProc` (`nCode >= 0`) leaves the payload
with `ptMinTrackSize = ptMaxTrackSize = (width, height)`, whatever it held. -/
theorem C2_minmax_reports_desired_size (host : Host) (st : State) (hwnd : HWND)
    (sizeData : ResizeData) (info : MINMAXINFO)
    (hrec : Map.find st.g_windowSizes hwnd = some sizeData) :
    (∀ (proc : WNDPROC) (wParam : WPARAM),
      Map.find st.g_originalWndProcs hwnd = some proc →
      ∃ r info1,
        CustomWindowProc host st hwnd WM_GETMINMAXINFO wParam (LParam.minMaxInfo info) = some r ∧
        r.lParam = LParam.minMaxInfo info1 ∧
        info1.ptMinTrackSize = { x := sizeData.width, y := sizeData.height } ∧
        info1.ptMaxTrackSize = { x := sizeData.width, y := sizeData.height }) ∧
    (∀ (nCode : Int) (wParam mwParam : WPARAM) (time : Nat) (pt : POINT),
      nCode ≥ 0 →
      ∃ r info1,
        MessageProc host st nCode wParam
          { hwnd := hwnd, message := WM_GETMINMAXINFO, wParam := mwParam,
            lParam := LParam.minMaxInfo info, time := time, pt := pt } = some r ∧
        r.msg.lParam = LParam.minMaxInfo info1 ∧
        info1.ptMinTrackSize = { x := sizeData.width, y := sizeData.height } ∧
        info1.ptMaxTrackSize = { x := sizeData.width, y := sizeData.height }) := by
  constructor
  · intro proc wParam hproc
    have h : CustomWindowProc host st hwnd WM_GETMINMAXINFO wParam (LParam.minMaxInfo info)
        = some { result := 0,
                 lParam := LParam.minMaxInfo { info with
                   ptMinTrackSize := { x := sizeData.width, y := sizeData.height },
                   ptMaxTrackSize := { x := sizeData.width, y := sizeData.height } },
                 state := st, forwarded := none, returns := true } := by
      simp [CustomWindowProc, CustomWindowProc.enforce, hproc, hrec, WM_GETMINMAXINFO,
        WM_NCCALCSIZE, WM_NCPAINT, WM_NCLBUTTONDOWN, WM_MOUSEMOVE, WM_LBUTTONUP, WM_NCHITTEST]
    exact ⟨_, _, h, rfl, rfl, rfl⟩
  · intro nCode wParam mwParam time pt hn
    have h : MessageProc host st nCode wParam
          { hwnd := hwnd, message := WM_GETMINMAXINFO, wParam := mwParam,
            lParam := LParam.minMaxInfo info, time := time, pt := pt }
        = some { result := 0,
                 msg := { hwnd := hwnd, message := WM_GETMINMAXINFO, wParam := mwParam,
                          lParam := LParam.minMaxInfo { info with
                            ptMinTrackSize := { x := sizeData.width, y := sizeData.height },
                            ptMaxTrackSize := { x := sizeData.width, y := sizeData.height } },
                          time := time, pt := pt },
                 state := st, passedOn := none } := by
      simp [MessageProc, hn, hrec, WM_GETMINMAXINFO]
    exact ⟨_, _, h, rfl, rfl, rfl⟩

/-- C2 at the enforced window of `demoEnforced`, record 800 by 600. -/
theorem C2_minmax_reports_desired_size_witness :
    Map.find demoEnforced.g_windowSizes 1
      = some { width := 800, height := 600, keepForcing := true } ∧
    Map.find demoEnforced.g_originalWndProcs 1 = some (WNDPROC.native 7) ∧
    (∃ r info1,
      CustomWindowProc (demoHost { x := 0, y := 0 }) demoEnforced 1 WM_GETMINMAXINFO 0
        (LParam.minMaxInfo demoMinMaxInfo) = some r ∧
      r.lParam = LParam.minMaxInfo info1 ∧
      info1.ptMinTrackSize = { x := 800, y := 600 } ∧
      info1.ptMaxTrackSize = { x := 800, y := 600 }) ∧
    (∃ r info1,
      MessageProc (demoHost { x := 0, y := 0 }) demoEnforced 0 1
        { hwnd := 1, message := WM_GETMINMAXINFO, wParam := 0,
          lParam := LParam.minMaxInfo demoMinMaxInfo, time := 0, pt := { x := 0, y := 0 } }
        = some r ∧
      r.msg.lParam = LParam.minMaxInfo info1 ∧
      info1.ptMinTrackSize = { x := 800, y := 600 } ∧
      info1.ptMaxTrackSize = { x := 800, y := 600 }) :=
  ⟨rfl, rfl,
    (C2_minmax_reports_desired_size (demoHost { x := 0, y := 0 }) demoEnforced 1
      { width := 800, height := 600, keepForcing := true } demoMinMaxInfo rfl).1
      (WNDPROC.native 7) 0 rfl,
    (C2_minmax_reports_desired_size (demoHost { x := 0, y := 0 }) demoEnforced 1
      { width := 800, height := 600, keepForcing := true } demoMinMaxInfo rfl).2
      0 1 0 0 { x := 0, y := 0 } (by decide)⟩

/-- C3: `ForceWindowSize` returns false exactly when the handle is null or not a
window; a false return leaves the whole state (both maps, both hook handles,
every window procedure, the thread list) unchanged; for every valid window it
returns true, records the old procedure, installs the interceptor and spawns the
enforcement thread, whatever the host answers to the two hook installations
(`0`, a refusal, included). -/
theorem C3_ForceWindowSize_result (st : State) (hwnd : HWND) (width height : Int)
    (messageHookAnswer cbtHookAnswer : HHOOK) :
    ((ForceWindowSize st hwnd width height messageHookAnswer cbtHookAnswer).1 = false ↔
      (hwnd = 0 ∨ IsWindow st.windows hwnd = false)) ∧
    ((ForceWindowSize st hwnd width height messageHookAnswer cbtHookAnswer).1 = false →
      (ForceWindowSize st hwnd width height messageHookAnswer cbtHookAnswer).2 = st) ∧
    (∀ w : Window, hwnd ≠ 0 → st.windows hwnd = some w →
      (ForceWindowSize st hwnd width height messageHookAnswer cbtHookAnswer).1 = true ∧
      (ForceWindowSize st hwnd width height messageHookAnswer cbtHookAnswer).2.windows hwnd
        = some { w with wndProc := WNDPROC.CustomWindowProc } ∧
      Map.find (ForceWindowSize st hwnd width height messageHookAnswer cbtHookAnswer).2.g_originalWndProcs
        hwnd = some w.wndProc ∧
      (ForceWindowSize st hwnd width height messageHookAnswer cbtHookAnswer).2.threads
        = st.threads ++ [Thread.spawn hwnd width height]) := by
  by_cases hbad : hwnd = 0 ∨ IsWindow st.windows hwnd = false
  · refine ⟨?_, ?_, ?_⟩
    · simp [ForceWindowSize, hbad]
    · intro _
      simp [ForceWindowSize, hbad]
    · intro w hnz hw
      rcases hbad with h | h
      · exact absurd h hnz
      · simp [IsWindow, hw] at h
  · refine ⟨?_, ?_, ?_⟩
    · simp [ForceWindowSize, hbad]
    · intro hfalse
      simp [ForceWindowSize, hbad] at hfalse
    · intro w _ hw
      refine ⟨?_, ?_, ?_, ?_⟩
      · simp [ForceWindowSize, hbad]
      · simp only [ForceWindowSize, if_neg hbad]
        exact SetWindowLongPtr_WNDPROC_same _ hw
      · simp only [ForceWindowSize, if_neg hbad, GetWindowLongPtr_WNDPROC, hw]
        exact Map.find_assign_self _ _ _
      · simp [ForceWindowSize, hbad]

/-- C3 on `demoDesktop`: window `1` with both hook installations refused, and
the handle `2`, which is not a window. -/
theorem C3_ForceWindowSize_result_witness :
    ((1 : HWND) ≠ 0 ∧ demoState.windows 1 = some
        { rect := { left := 100, top := 100, right := 500, bottom := 400 },
          style := 0x00CF0000, exStyle := 0x00000100, wndProc := WNDPROC.native 7 }) ∧
    ((ForceWindowSize demoState 1 800 600 0 0).1 = true ∧
      (ForceWindowSize demoState 1 800 600 0 0).2.windows 1 = some
        { rect := { left := 100, top := 100, right := 500, bottom := 400 },
          style := 0x00CF0000, exStyle := 0x00000100, wndProc := WNDPROC.CustomWindowProc } ∧
      Map.find (ForceWindowSize demoState 1 800 600 0 0).2.g_originalWndProcs 1
        = some (WNDPROC.native 7) ∧
      (ForceWindowSize demoState 1 800 600 0 0).2.threads
        = demoState.threads ++ [Thread.spawn 1 800 600]) ∧
    (ForceWindowSize demoState 2 800 600 11 12).1 = false ∧
    (ForceWindowSize demoState 2 800 600 11 12).2 = demoState :=
  ⟨⟨by decide, rfl⟩,
    (C3_ForceWindowSize_result demoState 1 800 600 0 0).2.2 _ (by decide) rfl,
    (C3_ForceWindowSize_result demoState 2 800 600 11 12).1.mpr (Or.inr rfl),
    (C3_ForceWindowSize_result demoState 2 800 600 11 12).2.1
      ((C3_ForceWindowSize_result demoState 2 800 600 11 12).1.mpr (Or.inr rfl))⟩

/-- C4: round trip. A valid window with no entry in the original-procedure map
has style `s`, extended style `e` and procedure `p`. After `ForceWindowSize`, the
start of its enforcement thread and any number `n` of further thread steps, the
interceptor is installed; after `CleanupResources` and at least three more
thread steps the thread has left its loop and is done, and the window has style
`s`, extended style `e` and procedure `p` again. -/
theorem C4_round_trip (st : State) (hwnd : HWND) (width height : Int)
    (messageHookAnswer cbtHookAnswer : HHOOK) (w : Window) (n m : Nat)
    (hnz : hwnd ≠ 0) (hwin : st.windows hwnd = some w)
    (hfresh : Map.find st.g_originalWndProcs hwnd = none) (hm : 3 ≤ m) :
    let i := st.threads.length
    let st1 := (ForceWindowSize st hwnd width height messageHookAnswer cbtHookAnswer).2
    let st2 := stepsThread st1 i (n + 1)
    let st3 := CleanupResources st2
    let st4 := stepsThread st3 i m
    (∃ w2, st2.windows hwnd = some w2 ∧ w2.wndProc = WNDPROC.CustomWindowProc) ∧
    (∃ w4 t, st4.windows hwnd = some w4 ∧
      w4.style = w.style ∧ w4.exStyle = w.exStyle ∧ w4.wndProc = w.wndProc ∧
      st4.threads[i]? = some t ∧ t.hwnd = hwnd ∧ t.pc = Pc.done) := by
  intro i st1 st2 st3 st4
  have hloop : Looping st2 i hwnd w.style w.exStyle
      (Map.assign st.g_originalWndProcs hwnd w.wndProc) :=
    steps_looping n (start_looping st hwnd width height messageHookAnswer cbtHookAnswer w hnz hwin)
  obtain ⟨hat, _, hprocs⟩ := hloop
  constructor
  · rcases hat with ⟨_, w2, _, _, _, _, _, hw2, _, hq, _⟩ | ⟨_, w2, _, _, _, _, _, hw2, _, hq, _⟩
    · exact ⟨w2, hw2, hq⟩
    · exact ⟨w2, hw2, hq⟩
  · have hexit : ThreadAt st4 i hwnd w.style w.exStyle w.wndProc Pc.done := by
      rcases hat with hat | hat
      · obtain ⟨h1, h2⟩ := cleanup_threadAt hat hprocs hfresh
        exact exit_steps m (Or.inl h1) h2 hm
      · obtain ⟨h1, h2⟩ := cleanup_threadAt hat hprocs hfresh
        exact exit_steps m (Or.inr h1) h2 hm
    obtain ⟨t, w4, ht, hh, _, _, hpc, hw4, hwe, hwq, hst⟩ := hexit
    exact ⟨w4, t, hw4, hst rfl, hwe, hwq, ht, hh, hpc⟩

/-- C4 on `demoDesktop`: window `1`, four thread steps before the cleanup, three after. -/
theorem C4_round_trip_witness :
    ((1 : HWND) ≠ 0 ∧ Map.find demoState.g_originalWndProcs 1 = none ∧ 3 ≤ 3) ∧
    (∃ w2, (stepsThread (ForceWindowSize demoState 1 800 600 11 12).2 0 (3 + 1)).windows 1
        = some w2 ∧ w2.wndProc = WNDPROC.CustomWindowProc) ∧
    (∃ w4 t,
      (stepsThread (CleanupResources
        (stepsThread (ForceWindowSize demoState 1 800 600 11 12).2 0 (3 + 1))) 0 3).windows 1
        = some w4 ∧
      w4.style = 0x00CF0000 ∧ w4.exStyle = 0x00000100 ∧ w4.wndProc = WNDPROC.native 7 ∧
      (stepsThread (CleanupResources
        (stepsThread (ForceWindowSize demoState 1 800 600 11 12).2 0 (3 + 1))) 0 3).threads[0]?
        = some t ∧
      t.hwnd = 1 ∧ t.pc = Pc.done) :=
  ⟨⟨by decide, rfl, by decide⟩,
    C4_round_trip demoState 1 800 600 11 12
      { rect := { left := 100, top := 100, right := 500, bottom := 400 },
        style := 0x00CF0000, exStyle := 0x00000100, wndProc := WNDPROC.native 7 }
      3 3 (by decide) rfl rfl (by decide)⟩

/-- C5: `CleanupResources` changes nothing in a state with no enforced windows
(both maps empty, both hook handles null), and it is idempotent: running it
twice in a row leaves the same state (registry, hook handles, window
procedures and all the rest) as running it once. -/
theorem C5_cleanup_noop_idempotent (st : State) :
    (st.g_originalWndProcs = [] → st.g_windowSizes = [] →
      st.g_messageHook = 0 → st.g_cbtHook = 0 → CleanupResources st = st) ∧
    CleanupResources (CleanupResources st) = CleanupResources st := by
  have hnoop : ∀ s : State, s.g_originalWndProcs = [] → s.g_windowSizes = [] →
      s.g_messageHook = 0 → s.g_cbtHook = 0 → CleanupResources s = s := by
    intro s h1 h2 h3 h4
    cases s
    simp only at h1 h2 h3 h4
    subst h1 h2 h3 h4
    simp [CleanupResources, restoreWndProcs]
  obtain ⟨_, f2, f3, f4, f5, _⟩ := CleanupResources_fields st
  exact ⟨hnoop st, hnoop _ f2 f3 f4 f5⟩

/-- C5 on `demoState`, where nothing is enforced. -/
theorem C5_cleanup_noop_idempotent_witness :
    (demoState.g_originalWndProcs = [] ∧ demoState.g_windowSizes = [] ∧
      demoState.g_messageHook = 0 ∧ demoState.g_cbtHook = 0) ∧
    CleanupResources demoState = demoState :=
  ⟨⟨rfl, rfl, rfl, rfl⟩, (C5_cleanup_noop_idempotent demoState).1 rfl rfl rfl rfl⟩

/-- C6 fails as stated. Window `1` of `demoOrphan` has the interceptor as
procedure, the rectangle (560, 240, 1360, 840) and no entry in the
original-procedure map. A press with the cursor at (600, 250), inside the top
band, moves to (610, 260) and (650, 300) and a release all go to `DefWindowProc`
(idle here): the window stays at (560, 240), not at (610, 290). -/
theorem C6_counterexample :
    Map.find demoOrphan.g_originalWndProcs 1 = none ∧
    (demoOrphan.windows 1).map (fun w => (w.wndProc, w.rect))
      = some (WNDPROC.CustomWindowProc,
          { left := 560, top := 240, right := 1360, bottom := 840 }) ∧
    ((240 : Int) ≤ 250 ∧ (250 : Int) ≤ iadd 240 CUSTOM_TITLE_HEIGHT) ∧
    (dragGesture (demoHost { x := 0, y := 0 }) demoOrphan 1
        { cursor := { x := 600, y := 250 }, wParam := 2, lParam := LParam.value 0 }
        [{ cursor := { x := 610, y := 260 }, wParam := 1, lParam := LParam.value 0 },
         { cursor := { x := 650, y := 300 }, wParam := 1, lParam := LParam.value 0 }]
        { cursor := { x := 650, y := 300 }, wParam := 0, lParam := LParam.value 0 }).map
        (fun st => (st.windows 1).map (fun w => w.rect))
      = some (some { left := 560, top := 240, right := 1360, bottom := 840 }) ∧
    wrap32 (560 + (650 - 600)) = 610 ∧ wrap32 (240 + (300 - 250)) = 290 := by
  refine ⟨rfl, rfl, ⟨by decide, by decide⟩, by decide, by decide, by decide⟩

/-- C6, amended: drag gesture in `CustomWindowProc`, for a window whose handle
is in the original-procedure map. The press `WM_NCLBUTTONDOWN` finds the cursor at `c0`
with `top <= c0.y <= top + CUSTOM_TITLE_HEIGHT`; pointer moves `WM_MOUSEMOVE`
follow, the last one with the cursor at `cn` (`cn = c0` when there is none); the
release `WM_LBUTTONUP` ends the gesture. After the moves and after the release
the top-left corner of the window is the initial corner plus `cn - c0` (in
32-bit `int` arithmetic, and exactly whenever the exact sum is an `int`), the
width and height are the initial ones, and the dragging flag is false after the
release. The list of moves is arbitrary, so the same holds after each prefix. -/
theorem C6_drag_moves_by_cumulative_delta (host : Host) (st : State) (hwnd : HWND)
    (p : WNDPROC) (w : Window) (press : PointerEvent) (moves : List PointerEvent)
    (release : PointerEvent)
    (hproc : Map.find st.g_originalWndProcs hwnd = some p)
    (hw : st.windows hwnd = some w)
    (hleft : isInt32 w.rect.left) (htop : isInt32 w.rect.top)
    (hband : w.rect.top ≤ press.cursor.y ∧
      press.cursor.y ≤ iadd w.rect.top CUSTOM_TITLE_HEIGHT) :
    ∃ st1 st2 w1,
      pressAndMoves host st hwnd press moves = some st1 ∧
      dragGesture host st hwnd press moves release = some st2 ∧
      st1.windows hwnd = some w1 ∧ st2.windows hwnd = some w1 ∧
      w1.rect.left
        = wrap32 (w.rect.left + ((lastCursor press.cursor moves).x - press.cursor.x)) ∧
      w1.rect.top
        = wrap32 (w.rect.top + ((lastCursor press.cursor moves).y - press.cursor.y)) ∧
      (isInt32 (w.rect.left + ((lastCursor press.cursor moves).x - press.cursor.x)) →
        w1.rect.left = w.rect.left + ((lastCursor press.cursor moves).x - press.cursor.x)) ∧
      (isInt32 (w.rect.top + ((lastCursor press.cursor moves).y - press.cursor.y)) →
        w1.rect.top = w.rect.top + ((lastCursor press.cursor moves).y - press.cursor.y)) ∧
      isub w1.rect.right w1.rect.left = isub w.rect.right w.rect.left ∧
      isub w1.rect.bottom w1.rect.top = isub w.rect.bottom w.rect.top ∧
      st2.g_isDragging = false := by
  have hpress : deliver host st hwnd WM_NCLBUTTONDOWN press
      = some { result := 0, lParam := press.lParam,
               state := { st with
                 g_isDragging := true, g_dragStart := press.cursor, capture := some hwnd },
               forwarded := none, returns := true } := by
    simp [deliver, CustomWindowProc, CustomWindowProc.ncLButtonDown, hproc, GetWindowRect, hw,
      hband.1, hband.2, WM_NCCALCSIZE, WM_NCPAINT, WM_NCLBUTTONDOWN]
  obtain ⟨st1, w1, hrun, hp1, hd1, hw1, hl, ht, hil, hit, hwd, hht⟩ :=
    deliverMoves_drag host hwnd p moves
      { st with g_isDragging := true, g_dragStart := press.cursor, capture := some hwnd } w
      hproc rfl hw
  have hmoves : pressAndMoves host st hwnd press moves = some st1 := by
    simp only [pressAndMoves, hpress]
    exact hrun
  have hrelease : deliver host st1 hwnd WM_LBUTTONUP release
      = some { result := 0, lParam := release.lParam,
               state := { st1 with g_isDragging := false, capture := none },
               forwarded := none, returns := true } := by
    simp [deliver, CustomWindowProc, CustomWindowProc.lButtonUp, hp1, hd1,
      WM_NCCALCSIZE, WM_NCPAINT, WM_NCLBUTTONDOWN, WM_MOUSEMOVE, WM_LBUTTONUP]
  have hleft1 : w1.rect.left
      = wrap32 (w.rect.left + ((lastCursor press.cursor moves).x - press.cursor.x)) := by
    rw [← wrap32_of_isInt32 (hil hleft)]
    exact hl
  have htop1 : w1.rect.top
      = wrap32 (w.rect.top + ((lastCursor press.cursor moves).y - press.cursor.y)) := by
    rw [← wrap32_of_isInt32 (hit htop)]
    exact ht
  refine ⟨st1, { st1 with g_isDragging := false, capture := none }, w1, hmoves, ?_, hw1, hw1,
    hleft1, htop1, ?_, ?_, hwd, hht, rfl⟩
  · simp [dragGesture, hmoves, hrelease]
  · intro hexact
    rw [hleft1, wrap32_of_isInt32 hexact]
  · intro hexact
    rw [htop1, wrap32_of_isInt32 hexact]

/-- C6 (amended) on the enforced window of `demoEnforced` (corner (560, 240)):
press at (600, 250), moves to (610, 260) and (650, 300), release. -/
theorem C6_drag_moves_by_cumulative_delta_witness :
    (Map.find demoEnforced.g_originalWndProcs 1 = some (WNDPROC.native 7) ∧
      demoEnforced.windows 1 = some demoEnforcedWindow ∧
      isInt32 demoEnforcedWindow.rect.left ∧ isInt32 demoEnforcedWindow.rect.top ∧
      demoEnforcedWindow.rect.top ≤ 250 ∧
      (250 : Int) ≤ iadd demoEnforcedWindow.rect.top CUSTOM_TITLE_HEIGHT) ∧
    ∃ st2 w1,
      dragGesture (demoHost { x := 0, y := 0 }) demoEnforced 1
        { cursor := { x := 600, y := 250 }, wParam := 2, lParam := LParam.value 0 }
        [{ cursor := { x := 610, y := 260 }, wParam := 1, lParam := LParam.value 0 },
         { cursor := { x := 650, y := 300 }, wParam := 1, lParam := LParam.value 0 }]
        { cursor := { x := 650, y := 300 }, wParam := 0, lParam := LParam.value 0 } = some st2 ∧
      st2.windows 1 = some w1 ∧
      w1.rect.left = 610 ∧ w1.rect.top = 290 ∧
      isub w1.rect.right w1.rect.left = 800 ∧ isub w1.rect.bottom w1.rect.top = 600 ∧
      st2.g_isDragging = false := by
  refine ⟨⟨rfl, rfl, by decide, by decide, by decide, by decide⟩, ?_⟩
  obtain ⟨_, st2, w1, _, hg, _, hw2, hl, ht, _, _, hwd, hht, hd⟩ :=
    C6_drag_moves_by_cumulative_delta (demoHost { x := 0, y := 0 }) demoEnforced 1
      (WNDPROC.native 7) demoEnforcedWindow
      { cursor := { x := 600, y := 250 }, wParam := 2, lParam := LParam.value 0 }
      [{ cursor := { x := 610, y := 260 }, wParam := 1, lParam := LParam.value 0 },
       { cursor := { x := 650, y := 300 }, wParam := 1, lParam := LParam.value 0 }]
      { cursor := { x := 650, y := 300 }, wParam := 0, lParam := LParam.value 0 }
      rfl rfl (by decide) (by decide) ⟨by decide, by decide⟩
  exact ⟨st2, w1, hg, hw2, hl.trans (by decide), ht.trans (by decide),
    hwd.trans (by decide), hht.trans (by decide), hd⟩

/-- C7 fails as stated. Window `1` of `demoIntercepted` has an original
procedure and no record in the geometry map. With an idle original procedure
(returns `0`, changes nothing): on `WM_NCCALCSIZE` with `wParam = 1` the
interceptor returns a payload that differs from the one the original leaves; on
a press `WM_NCLBUTTONDOWN` inside the top band it does not call the original and
sets the dragging flag; on `WM_NCPAINT` it paints the caption; during a drag
(`demoDragging`) it consumes `WM_MOUSEMOVE` and moves the window, and consumes
`WM_LBUTTONUP` and clears the dragging flag. With an original procedure that
answers `HTCLIENT`, on `WM_NCHITTEST` at the screen point (300, 110) it answers
`HTCAPTION`. Window `1` of `demoStale` has no record and no entry in the
original-procedure map: a `WM_SIZE` goes to `DefWindowProc`, whose answer `0` is
not the answer `HTCLIENT` of the original procedure. Window `1` of
`demoTwiceIntercepted` has no record and the interceptor itself as stored
procedure: on `WM_SIZE` the interceptor calls itself and does not return. -/
theorem C7_counterexample :
    Map.find demoIntercepted.g_windowSizes 1 = none ∧
    Map.find demoIntercepted.g_originalWndProcs 1 = some (WNDPROC.native 7) ∧
    (CustomWindowProc (demoHost { x := 0, y := 0 }) demoIntercepted 1 WM_NCCALCSIZE 1
        (LParam.ncCalcSize demoNcCalcSize)).map (fun r => r.lParam)
      ≠ some (((demoHost { x := 0, y := 0 }).CallWindowProc (WNDPROC.native 7)).call 1
          WM_NCCALCSIZE 1 (LParam.ncCalcSize demoNcCalcSize) demoIntercepted.windows).2.1 ∧
    (CustomWindowProc (demoHost { x := 300, y := 110 }) demoIntercepted 1 WM_NCLBUTTONDOWN 2
        (LParam.value 0)).map (fun r => (r.forwarded, r.state.g_isDragging))
      = some (none, true) ∧
    demoIntercepted.g_isDragging = false ∧
    (CustomWindowProc (demoHost { x := 0, y := 0 }) demoIntercepted 1 WM_NCPAINT 1
        (LParam.value 0)).map (fun r => r.state.painted) = some [1] ∧
    demoIntercepted.painted = [] ∧
    (CustomWindowProc clientHost demoIntercepted 1 WM_NCHITTEST 0
        (LParam.value 7209260)).map (fun r => r.result) = some HTCAPTION ∧
    ((clientHost.CallWindowProc (WNDPROC.native 7)).call 1 WM_NCHITTEST 0
        (LParam.value 7209260) demoIntercepted.windows).1 = HTCLIENT ∧
    Map.find demoDragging.g_windowSizes 1 = none ∧
    (CustomWindowProc (demoHost { x := 310, y := 120 }) demoDragging 1 WM_MOUSEMOVE 1
        (LParam.value 0)).map
        (fun r => (r.forwarded, (r.state.windows 1).map (fun w => w.rect)))
      = some (none, some { left := 110, top := 110, right := 510, bottom := 410 }) ∧
    (demoDragging.windows 1).map (fun w => w.rect)
      = some { left := 100, top := 100, right := 500, bottom := 400 } ∧
    (CustomWindowProc (demoHost { x := 310, y := 120 }) demoDragging 1 WM_LBUTTONUP 0
        (LParam.value 0)).map (fun r => (r.forwarded, r.state.g_isDragging))
      = some (none, false) ∧
    Map.find demoStale.g_windowSizes 1 = none ∧
    Map.find demoStale.g_originalWndProcs 1 = none ∧
    (demoStale.windows 1).map (fun w => w.wndProc) = some WNDPROC.CustomWindowProc ∧
    (CustomWindowProc splitHost demoStale 1 WM_SIZE 0 (LParam.value 0)).map
        (fun r => (r.result, r.forwarded.map (fun f => f.target)))
      = some (0, some Target.defWindowProc) ∧
    ((splitHost.CallWindowProc (WNDPROC.native 7)).call 1 WM_SIZE 0 (LParam.value 0)
        demoStale.windows).1 = HTCLIENT ∧
    Map.find demoTwiceIntercepted.g_windowSizes 1 = none ∧
    Map.find demoTwiceIntercepted.g_originalWndProcs 1 = some WNDPROC.CustomWindowProc ∧
    (CustomWindowProc (demoHost { x := 0, y := 0 }) demoTwiceIntercepted 1 WM_SIZE 0
        (LParam.value 0)).map (fun r => r.returns) = some false := by
  refine ⟨rfl, rfl, by decide, by decide, rfl, by decide, rfl, by decide, by decide, rfl,
    by decide, by decide, by decide, rfl, rfl, rfl, by decide, by decide, rfl, rfl,
    by decide⟩

/-- C7, amended. A handle has no record in the geometry map. If it has no entry
in the original-procedure map either, `CustomWindowProc` hands every event
unmodified to `DefWindowProc`. If the map stores for it an original procedure
other than the interceptor itself, `CustomWindowProc` hands unmodified to that
procedure every event except: `WM_NCCALCSIZE` with non-zero `wParam`;
`WM_NCPAINT` when a device context is obtained; a `WM_NCHITTEST` (its `lParam` a
packed screen point) that the original procedure answers with `HTCLIENT` at a
point whose client `y` lies in `0 .. CUSTOM_TITLE_HEIGHT`; a `WM_NCLBUTTONDOWN`
for which `GetCursorPos` and `GetWindowRect` succeed and the cursor `y` lies in
`top .. top + CUSTOM_TITLE_HEIGHT`; a `WM_MOUSEMOVE` during a drag for which
`GetCursorPos` succeeds; a `WM_LBUTTONUP` during a drag. For a forwarded event
the call returns, the result, the payload and the desktop are those the called
procedure leaves, and nothing else changes (no window move, no change of drag
state, no caption painting). -/
theorem C7_forwarding_without_record (host : Host) (st : State) (hwnd : HWND) (msg : UINT)
    (wParam : WPARAM) (lParam : LParam) (hrec : Map.find st.g_windowSizes hwnd = none) :
    (Map.find st.g_originalWndProcs hwnd = none →
      CustomWindowProc host st hwnd msg wParam lParam
        = some { result := (host.DefWindowProc.call hwnd msg wParam lParam st.windows).1,
                 lParam := (host.DefWindowProc.call hwnd msg wParam lParam st.windows).2.1,
                 state := { st with
                   windows := (host.DefWindowProc.call hwnd msg wParam lParam st.windows).2.2 },
                 forwarded := some { target := Target.defWindowProc, msg := msg,
                                     wParam := wParam, lParam := lParam },
                 returns := true }) ∧
    (∀ proc : WNDPROC, Map.find st.g_originalWndProcs hwnd = some proc →
      proc ≠ WNDPROC.CustomWindowProc →
      ¬ (msg = WM_NCCALCSIZE ∧ wParam ≠ 0) →
      ¬ (msg = WM_NCPAINT ∧ host.deviceContext = true) →
      (msg = WM_NCHITTEST → ∃ v, lParam = LParam.value v ∧
        ¬ (((host.CallWindowProc proc).call hwnd msg wParam lParam st.windows).1 = HTCLIENT ∧
          0 ≤ (host.ScreenToClient hwnd { x := GET_X_LPARAM v, y := GET_Y_LPARAM v }).y ∧
          (host.ScreenToClient hwnd { x := GET_X_LPARAM v, y := GET_Y_LPARAM v }).y
            ≤ CUSTOM_TITLE_HEIGHT)) →
      ¬ (msg = WM_NCLBUTTONDOWN ∧ ∃ c rect, host.GetCursorPos = some c ∧
          GetWindowRect st.windows hwnd = some rect ∧
          rect.top ≤ c.y ∧ c.y ≤ iadd rect.top CUSTOM_TITLE_HEIGHT) →
      ¬ (msg = WM_MOUSEMOVE ∧ st.g_isDragging = true ∧ host.GetCursorPos.isSome = true) →
      ¬ (msg = WM_LBUTTONUP ∧ st.g_isDragging = true) →
      CustomWindowProc host st hwnd msg wParam lParam
        = some { result := ((host.CallWindowProc proc).call hwnd msg wParam lParam st.windows).1,
                 lParam := ((host.CallWindowProc proc).call hwnd msg wParam lParam st.windows).2.1,
                 state := { st with
                   windows :=
                     ((host.CallWindowProc proc).call hwnd msg wParam lParam st.windows).2.2 },
                 forwarded := some { target := Target.original proc, msg := msg,
                                     wParam := wParam, lParam := lParam },
                 returns := true }) := by
  constructor
  · intro hnone
    have hdef : Target.defWindowProc ≠ Target.original WNDPROC.CustomWindowProc := by
      intro e
      cases e
    simp only [CustomWindowProc, hnone]
    rw [forward_returning host st _ hwnd msg wParam lParam hdef]
    rfl
  · intro proc hproc hne hcalc hpaint hhit hdown hmove hup
    have htarget : Target.original proc ≠ Target.original WNDPROC.CustomWindowProc := by
      intro e
      cases e
      exact hne rfl
    have hfwd := forward_returning host st (Target.original proc) hwnd msg wParam lParam htarget
    have hresult : some (forward host st (Target.original proc) hwnd msg wParam lParam)
        = some { result := ((host.CallWindowProc proc).call hwnd msg wParam lParam st.windows).1,
                 lParam := ((host.CallWindowProc proc).call hwnd msg wParam lParam st.windows).2.1,
                 state := { st with
                   windows :=
                     ((host.CallWindowProc proc).call hwnd msg wParam lParam st.windows).2.2 },
                 forwarded := some { target := Target.original proc, msg := msg,
                                     wParam := wParam, lParam := lParam },
                 returns := true } := by
      rw [hfwd]
      rfl
    have henforce : CustomWindowProc.enforce host st proc hwnd msg wParam lParam
        = some (forward host st (Target.original proc) hwnd msg wParam lParam) := by
      simp [CustomWindowProc.enforce, hrec]
    have hreturns : (forward host st (Target.original proc) hwnd msg wParam lParam).returns
        = true := by
      rw [hfwd]
    rw [← hresult]
    simp only [CustomWindowProc, hproc]
    by_cases h1 : msg = WM_NCCALCSIZE
    · have hw0 : wParam = 0 := by
        by_contra hnz
        exact hcalc ⟨h1, hnz⟩
      rw [if_pos h1]
      unfold CustomWindowProc.ncCalcSize
      rw [if_neg (not_not.mpr hw0)]
      exact henforce
    · rw [if_neg h1]
      by_cases h2 : msg = WM_NCPAINT
      · have hdc : host.deviceContext = false := by
          cases hd : host.deviceContext
          · rfl
          · exact absurd ⟨h2, hd⟩ hpaint
        rw [if_pos h2]
        unfold CustomWindowProc.ncPaint
        simp only []
        rw [if_neg (by simp [hreturns]), if_neg (by simp [hdc])]
      · rw [if_neg h2]
        by_cases h3 : msg = WM_NCLBUTTONDOWN
        · rw [if_pos h3]
          unfold CustomWindowProc.ncLButtonDown
          cases hc : host.GetCursorPos with
          | none => exact henforce
          | some c =>
            cases hr : GetWindowRect st.windows hwnd with
            | none => exact henforce
            | some rect =>
              have hband : ¬ (c.y ≥ rect.top ∧ c.y ≤ iadd rect.top CUSTOM_TITLE_HEIGHT) := by
                intro hb
                exact hdown ⟨h3, c, rect, hc, hr, hb.1, hb.2⟩
              simp only []
              rw [if_neg hband]
              exact henforce
        · rw [if_neg h3]
          by_cases h4 : msg = WM_MOUSEMOVE
          · rw [if_pos h4]
            unfold CustomWindowProc.mouseMove
            cases hd : st.g_isDragging with
            | false => simpa using henforce
            | true =>
              cases hc : host.GetCursorPos with
              | none => simpa using henforce
              | some c => exact absurd ⟨h4, hd, by simp [hc]⟩ hmove
          · rw [if_neg h4]
            by_cases h5 : msg = WM_LBUTTONUP
            · have hnd : st.g_isDragging = false := by
                cases hd : st.g_isDragging
                · rfl
                · exact absurd ⟨h5, hd⟩ hup
              rw [if_pos h5, CustomWindowProc.lButtonUp, if_neg (by simp [hnd])]
              exact henforce
            · rw [if_neg h5]
              by_cases h6 : msg = WM_NCHITTEST
              · obtain ⟨v, hv, hnot⟩ := hhit h6
                rw [if_pos h6]
                subst hv
                simp only [CustomWindowProc.ncHitTest, hreturns]
                by_cases hcli : (forward host st (Target.original proc) hwnd msg wParam
                    (LParam.value v)).result = HTCLIENT
                · have hcli2 : ((host.CallWindowProc proc).call hwnd msg wParam
                      (LParam.value v) st.windows).1 = HTCLIENT := by
                    rw [hfwd] at hcli
                    exact hcli
                  have hout : ¬ ((host.ScreenToClient hwnd
                        { x := GET_X_LPARAM v, y := GET_Y_LPARAM v }).y ≥ 0 ∧
                      (host.ScreenToClient hwnd
                        { x := GET_X_LPARAM v, y := GET_Y_LPARAM v }).y ≤ CUSTOM_TITLE_HEIGHT) := by
                    intro hb
                    exact hnot ⟨hcli2, hb.1, hb.2⟩
                  simp [hcli, hout]
                · simp [hcli]
              · rw [if_neg h6]
                exact henforce

/-- C7 (amended) on `demoDesktop`: for window `1` of `demoIntercepted`, a
`WM_SIZE`, a press `WM_NCLBUTTONDOWN` at cursor `y = 131` below the band, and a
`WM_NCHITTEST` that the original procedure answers with `0`; for window `1` of
`demoState`, which has no entry in either map, a `WM_NCPAINT`. -/
theorem C7_forwarding_without_record_witness :
    (Map.find demoIntercepted.g_windowSizes 1 = none ∧
      Map.find demoIntercepted.g_originalWndProcs 1 = some (WNDPROC.native 7) ∧
      WNDPROC.native 7 ≠ WNDPROC.CustomWindowProc ∧
      Map.find demoState.g_windowSizes 1 = none ∧
      Map.find demoState.g_originalWndProcs 1 = none) ∧
    CustomWindowProc (demoHost { x := 0, y := 0 }) demoIntercepted 1 WM_SIZE 0 (LParam.value 0)
      = some (forward (demoHost { x := 0, y := 0 }) demoIntercepted
          (Target.original (WNDPROC.native 7)) 1 WM_SIZE 0 (LParam.value 0)) ∧
    CustomWindowProc (demoHost { x := 300, y := 131 }) demoIntercepted 1 WM_NCLBUTTONDOWN 2
        (LParam.value 0)
      = some (forward (demoHost { x := 300, y := 131 }) demoIntercepted
          (Target.original (WNDPROC.native 7)) 1 WM_NCLBUTTONDOWN 2 (LParam.value 0)) ∧
    CustomWindowProc (demoHost { x := 0, y := 0 }) demoIntercepted 1 WM_NCHITTEST 0
        (LParam.value 7209260)
      = some (forward (demoHost { x := 0, y := 0 }) demoIntercepted
          (Target.original (WNDPROC.native 7)) 1 WM_NCHITTEST 0 (LParam.value 7209260)) ∧
    CustomWindowProc (demoHost { x := 0, y := 0 }) demoState 1 WM_NCPAINT 1 (LParam.value 0)
      = some (forward (demoHost { x := 0, y := 0 }) demoState
          Target.defWindowProc 1 WM_NCPAINT 1 (LParam.value 0)) :=
  ⟨⟨rfl, rfl, by decide, rfl, rfl⟩,
    (C7_forwarding_without_record (demoHost { x := 0, y := 0 }) demoIntercepted 1 WM_SIZE 0
      (LParam.value 0) rfl).2 (WNDPROC.native 7) rfl (by decide)
      (by decide) (by decide) (fun h => absurd h (by decide))
      (fun h => absurd h.1 (by decide)) (by decide) (by decide),
    (C7_forwarding_without_record (demoHost { x := 300, y := 131 }) demoIntercepted 1
      WM_NCLBUTTONDOWN 2 (LParam.value 0) rfl).2 (WNDPROC.native 7) rfl (by decide)
      (by decide) (by decide) (fun h => absurd h (by decide))
      (fun h => by
        obtain ⟨_, c, rect, hc, hr, _, hband⟩ := h
        cases hc
        cases hr
        exact absurd hband (by decide))
      (by decide) (by decide),
    (C7_forwarding_without_record (demoHost { x := 0, y := 0 }) demoIntercepted 1
      WM_NCHITTEST 0 (LParam.value 7209260) rfl).2 (WNDPROC.native 7) rfl (by decide)
      (by decide) (by decide)
      (fun _ => ⟨7209260, rfl, fun h => absurd h.1 (by decide)⟩)
      (fun h => absurd h.1 (by decide)) (by decide) (by decide),
    (C7_forwarding_without_record (demoHost { x := 0, y := 0 }) demoState 1 WM_NCPAINT 1
      (LParam.value 0) rfl).1 rfl⟩

/-- C8 fails as stated. Window `1` of `demoEnforced` has the record 800 by 600;
a `WM_WINDOWPOSCHANGING` proposing 1000 by 1000 with `SWP_NOSIZE` clear, met by
`MessageProc` with `nCode = -1`, reaches the next hook with `cx = cy = 1000`.
Window `1` of `demoOrphan` has the record 800 by 600 and no entry in the
original-procedure map; the same event, met by `CustomWindowProc`, reaches
`DefWindowProc` with `cx = cy = 1000`. -/
theorem C8_counterexample :
    Map.find demoEnforced.g_windowSizes 1
      = some { width := 800, height := 600, keepForcing := true } ∧
    demoWindowPos.flags &&& SWP_NOSIZE = 0 ∧
    (MessageProc (demoHost { x := 0, y := 0 }) demoEnforced (-1) 1
        { hwnd := 1, message := WM_WINDOWPOSCHANGING, wParam := 0,
          lParam := LParam.windowPos demoWindowPos, time := 0, pt := { x := 0, y := 0 } }).map
        (fun r => r.passedOn.map (fun m => m.lParam))
      = some (some (LParam.windowPos demoWindowPos)) ∧
    Map.find demoOrphan.g_windowSizes 1
      = some { width := 800, height := 600, keepForcing := true } ∧
    (demoOrphan.windows 1).map (fun w => w.wndProc) = some WNDPROC.CustomWindowProc ∧
    (CustomWindowProc (demoHost { x := 0, y := 0 }) demoOrphan 1 WM_WINDOWPOSCHANGING 0
        (LParam.windowPos demoWindowPos)).map (fun r => r.forwarded)
      = some (some { target := Target.defWindowProc, msg := WM_WINDOWPOSCHANGING, wParam := 0,
                     lParam := LParam.windowPos demoWindowPos }) := by
  refine ⟨rfl, by decide, by decide, rfl, rfl, by decide⟩

/-- C8, amended. For a handle with a record (width, height) in the geometry map,
a `WM_WINDOWPOSCHANGING` handled by `CustomWindowProc` (handle present in the
original-procedure map) or by `MessageProc` (`nCode >= 0`) reaches the next
handler (the original procedure, the next hook) with `cx = width` and
`cy = height` if `SWP_NOSIZE` is not set in the payload, and with `cx` and `cy`
as proposed if it is set; every other field of the payload is as proposed. -/
theorem C8_poschanging_overwrites_size (host : Host) (st : State) (hwnd : HWND)
    (sizeData : ResizeData) (pos : WINDOWPOS)
    (hrec : Map.find st.g_windowSizes hwnd = some sizeData) :
    (∀ (proc : WNDPROC) (wParam : WPARAM),
      Map.find st.g_originalWndProcs hwnd = some proc →
      ∃ r, CustomWindowProc host st hwnd WM_WINDOWPOSCHANGING wParam (LParam.windowPos pos)
          = some r ∧
        (pos.flags &&& SWP_NOSIZE = 0 →
          r.forwarded = some
            { target := Target.original proc, msg := WM_WINDOWPOSCHANGING, wParam := wParam,
              lParam := LParam.windowPos
                { pos with cx := sizeData.width, cy := sizeData.height } }) ∧
        (pos.flags &&& SWP_NOSIZE ≠ 0 →
          r.forwarded = some
            { target := Target.original proc, msg := WM_WINDOWPOSCHANGING, wParam := wParam,
              lParam := LParam.windowPos pos })) ∧
    (∀ (nCode : Int) (wParam mwParam : WPARAM) (time : Nat) (pt : POINT),
      nCode ≥ 0 →
      ∃ r, MessageProc host st nCode wParam
          { hwnd := hwnd, message := WM_WINDOWPOSCHANGING, wParam := mwParam,
            lParam := LParam.windowPos pos, time := time, pt := pt } = some r ∧
        (pos.flags &&& SWP_NOSIZE = 0 →
          r.passedOn = some
            { hwnd := hwnd, message := WM_WINDOWPOSCHANGING, wParam := mwParam,
              lParam := LParam.windowPos
                { pos with cx := sizeData.width, cy := sizeData.height },
              time := time, pt := pt }) ∧
        (pos.flags &&& SWP_NOSIZE ≠ 0 →
          r.passedOn = some
            { hwnd := hwnd, message := WM_WINDOWPOSCHANGING, wParam := mwParam,
              lParam := LParam.windowPos pos, time := time, pt := pt })) := by
  constructor
  · intro proc wParam hproc
    have h : CustomWindowProc host st hwnd WM_WINDOWPOSCHANGING wParam (LParam.windowPos pos)
        = some (forward host st (Target.original proc) hwnd WM_WINDOWPOSCHANGING wParam
            (LParam.windowPos
              (if pos.flags &&& SWP_NOSIZE = 0 then
                { pos with cx := sizeData.width, cy := sizeData.height }
              else pos))) := by
      simp [CustomWindowProc, CustomWindowProc.enforce, hproc, hrec, WM_WINDOWPOSCHANGING,
        WM_GETMINMAXINFO, WM_NCCALCSIZE, WM_NCPAINT, WM_NCLBUTTONDOWN, WM_MOUSEMOVE,
        WM_LBUTTONUP, WM_NCHITTEST]
    refine ⟨_, h, ?_, ?_⟩
    · intro hf
      rw [forward_forwarded]
      simp [hf]
    · intro hf
      rw [forward_forwarded]
      simp [hf]
  · intro nCode wParam mwParam time pt hn
    have h : MessageProc host st nCode wParam
          { hwnd := hwnd, message := WM_WINDOWPOSCHANGING, wParam := mwParam,
            lParam := LParam.windowPos pos, time := time, pt := pt }
        = some (MessageProc.next host st nCode wParam
            { hwnd := hwnd, message := WM_WINDOWPOSCHANGING, wParam := mwParam,
              lParam := LParam.windowPos
                (if pos.flags &&& SWP_NOSIZE = 0 then
                  { pos with cx := sizeData.width, cy := sizeData.height }
                else pos),
              time := time, pt := pt }) := by
      simp [MessageProc, hn, hrec, WM_WINDOWPOSCHANGING, WM_GETMINMAXINFO, WM_NCCALCSIZE]
    refine ⟨_, h, ?_, ?_⟩
    · intro hf
      simp [MessageProc.next, hf]
    · intro hf
      simp [MessageProc.next, hf]

/-- C8 (amended) at the enforced window of `demoEnforced`, record 800 by 600,
with a proposal of 1000 by 1000 and `SWP_NOSIZE` clear. -/
theorem C8_poschanging_overwrites_size_witness :
    (Map.find demoEnforced.g_windowSizes 1
        = some { width := 800, height := 600, keepForcing := true } ∧
      Map.find demoEnforced.g_originalWndProcs 1 = some (WNDPROC.native 7) ∧
      (0 : Int) ≥ 0 ∧ demoWindowPos.flags &&& SWP_NOSIZE = 0) ∧
    (CustomWindowProc (demoHost { x := 0, y := 0 }) demoEnforced 1 WM_WINDOWPOSCHANGING 0
        (LParam.windowPos demoWindowPos)).map (fun r => r.forwarded)
      = some (some
          { target := Target.original (WNDPROC.native 7), msg := WM_WINDOWPOSCHANGING,
            wParam := 0,
            lParam := LParam.windowPos { demoWindowPos with cx := 800, cy := 600 } }) ∧
    (MessageProc (demoHost { x := 0, y := 0 }) demoEnforced 0 1
        { hwnd := 1, message := WM_WINDOWPOSCHANGING, wParam := 0,
          lParam := LParam.windowPos demoWindowPos, time := 0, pt := { x := 0, y := 0 } }).map
        (fun r => r.passedOn)
      = some (some
          { hwnd := 1, message := WM_WINDOWPOSCHANGING, wParam := 0,
            lParam := LParam.windowPos { demoWindowPos with cx := 800, cy := 600 },
            time := 0, pt := { x := 0, y := 0 } }) := by
  refine ⟨⟨rfl, rfl, by decide, by decide⟩, ?_, ?_⟩
  · obtain ⟨r, hr, h1, _⟩ :=
      (C8_poschanging_overwrites_size (demoHost { x := 0, y := 0 }) demoEnforced 1
        { width := 800, height := 600, keepForcing := true } demoWindowPos rfl).1
        (WNDPROC.native 7) 0 rfl
    rw [hr, Option.map_some', h1 (by decide)]
  · obtain ⟨r, hr, h1, _⟩ :=
      (C8_poschanging_overwrites_size (demoHost { x := 0, y := 0 }) demoEnforced 1
        { width := 800, height := 600, keepForcing := true } demoWindowPos rfl).2
        0 1 0 0 { x := 0, y := 0 } (by decide)
    rw [hr, Option.map_some', h1 (by decide)]

/-- C9 fails as stated. Window `1` of `demoOrphan` has the record 800 by 600,
the interceptor as procedure and no entry in the original-procedure map: on
`WM_NCCALCSIZE` with `wParam = 1` the interceptor hands the event to
`DefWindowProc` and leaves the first rectangle as it came (top `100`, 400 by
300). Window `1` of `demoTwice` has the record 800 by 600 and the interceptor
itself as stored procedure: the interceptor calls itself, does not return, and
the first rectangle stays as it came. -/
theorem C9_counterexample :
    Map.find demoOrphan.g_windowSizes 1
      = some { width := 800, height := 600, keepForcing := true } ∧
    Map.find demoOrphan.g_originalWndProcs 1 = none ∧
    (demoOrphan.windows 1).map (fun w => w.wndProc) = some WNDPROC.CustomWindowProc ∧
    (CustomWindowProc (demoHost { x := 0, y := 0 }) demoOrphan 1 WM_NCCALCSIZE 1
        (LParam.ncCalcSize demoNcCalcSize)).map
        (fun r => (r.forwarded.map (fun f => f.target), r.lParam))
      = some (some Target.defWindowProc, LParam.ncCalcSize demoNcCalcSize) ∧
    demoNcCalcSize.rgrc0 = { left := 100, top := 100, right := 500, bottom := 400 } ∧
    Map.find demoTwice.g_windowSizes 1
      = some { width := 800, height := 600, keepForcing := true } ∧
    Map.find demoTwice.g_originalWndProcs 1 = some WNDPROC.CustomWindowProc ∧
    (CustomWindowProc (demoHost { x := 0, y := 0 }) demoTwice 1 WM_NCCALCSIZE 1
        (LParam.ncCalcSize demoNcCalcSize)).map (fun r => (r.returns, r.lParam))
      = some (false, LParam.ncCalcSize demoNcCalcSize) := by
  refine ⟨rfl, rfl, rfl, by decide, rfl, rfl, rfl, by decide⟩

/-- C9, amended. For a handle with a record (width, height) for which the
original-procedure map stores a procedure other than the interceptor itself, and
whatever that original procedure does, `CustomWindowProc` on `WM_NCCALCSIZE`
with non-zero `wParam` and incoming first rectangle of top `t` hands the
incoming payload to the original procedure first, returns its result, and leaves
the first rectangle with `top = t + CUSTOM_TITLE_HEIGHT`, `right - left = width`
and `bottom - top = height - CUSTOM_TITLE_HEIGHT`; the left edge and the other
fields of the payload are as the original procedure left them. -/
theorem C9_nccalcsize_forces_client_rect (host : Host) (st : State) (hwnd : HWND)
    (proc : WNDPROC) (sizeData : ResizeData) (wParam : WPARAM) (params : NCCALCSIZE_PARAMS)
    (hproc : Map.find st.g_originalWndProcs hwnd = some proc)
    (hne : proc ≠ WNDPROC.CustomWindowProc)
    (hrec : Map.find st.g_windowSizes hwnd = some sizeData)
    (hwParam : wParam ≠ 0) (hwidth : isInt32 sizeData.width) :
    ∃ r rc,
      CustomWindowProc host st hwnd WM_NCCALCSIZE wParam (LParam.ncCalcSize params) = some r ∧
      r.forwarded = some
        { target := Target.original proc, msg := WM_NCCALCSIZE, wParam := wParam,
          lParam := LParam.ncCalcSize params } ∧
      r.returns = true ∧
      r.result
        = ((host.CallWindowProc proc).onNcCalcSize hwnd WM_NCCALCSIZE wParam params
            st.windows).1 ∧
      r.lParam = LParam.ncCalcSize
        { ((host.CallWindowProc proc).onNcCalcSize hwnd WM_NCCALCSIZE wParam params
            st.windows).2.1 with rgrc0 := rc } ∧
      rc.top = iadd params.rgrc0.top CUSTOM_TITLE_HEIGHT ∧
      isub rc.right rc.left = sizeData.width ∧
      isub rc.bottom rc.top = isub sizeData.height CUSTOM_TITLE_HEIGHT ∧
      rc.left = ((host.CallWindowProc proc).onNcCalcSize hwnd WM_NCCALCSIZE wParam params
        st.windows).2.1.rgrc0.left := by
  have h : CustomWindowProc host st hwnd WM_NCCALCSIZE wParam (LParam.ncCalcSize params)
      = CustomWindowProc.ncCalcSize host st proc hwnd WM_NCCALCSIZE wParam
          (LParam.ncCalcSize params) := by
    simp [CustomWindowProc, hproc]
  rw [h]
  simp only [CustomWindowProc.ncCalcSize, if_pos hwParam, if_neg hne, hrec]
  refine ⟨_, _, rfl, rfl, rfl, rfl, rfl, rfl, ?_, ?_, rfl⟩
  · simp only [isub_iadd_cancel, wrap32_of_isInt32 hwidth]
  · simp only [iadd, isub, wrap32]
    omega

/-- C9 (amended) at the enforced window of `demoEnforced`, record 800 by 600,
with an original procedure that insets the rectangle by 8 and returns `0x0300`. -/
theorem C9_nccalcsize_forces_client_rect_witness :
    (Map.find demoEnforced.g_originalWndProcs 1 = some (WNDPROC.native 7) ∧
      WNDPROC.native 7 ≠ WNDPROC.CustomWindowProc ∧
      Map.find demoEnforced.g_windowSizes 1
        = some { width := 800, height := 600, keepForcing := true } ∧
      (1 : WPARAM) ≠ 0 ∧ isInt32 800) ∧
    ∃ r rc,
      CustomWindowProc borderHost demoEnforced 1 WM_NCCALCSIZE 1
        (LParam.ncCalcSize demoNcCalcSize) = some r ∧
      r.returns = true ∧
      r.result = 0x0300 ∧
      r.lParam = LParam.ncCalcSize { demoNcCalcSize with rgrc0 := rc } ∧
      rc.top = 130 ∧ isub rc.right rc.left = 800 ∧ isub rc.bottom rc.top = 570 ∧
      rc.left = 108 := by
  refine ⟨⟨rfl, by decide, rfl, by decide, by decide⟩, ?_⟩
  obtain ⟨r, rc, hr, _, hret, hres, hl, htop, hwd, hht, hleft⟩ :=
    C9_nccalcsize_forces_client_rect borderHost demoEnforced 1 (WNDPROC.native 7)
      { width := 800, height := 600, keepForcing := true } 1 demoNcCalcSize
      rfl (by decide) rfl (by decide) (by decide)
  exact ⟨r, rc, hr, hret, hres.trans rfl, hl.trans rfl, htop.trans (by decide), hwd,
    hht.trans (by decide), hleft.trans (by decide)⟩

/-- C10 fails as stated. Window `1` of `demoEnforced` has a record and
`nCode = 0`; on `WM_NCCALCSIZE` with non-zero `wParam`, `MessageProc` rewrites
the first rectangle and then passes the event on to the next hook. -/
theorem C10_counterexample :
    Map.find demoEnforced.g_windowSizes 1
      = some { width := 800, height := 600, keepForcing := true } ∧
    (0 : Int) ≥ 0 ∧
    (MessageProc (demoHost { x := 0, y := 0 }) demoEnforced 0 1
        { hwnd := 1, message := WM_NCCALCSIZE, wParam := 1,
          lParam := LParam.ncCalcSize demoNcCalcSize, time := 0, pt := { x := 0, y := 0 } }).map
        (fun r => r.passedOn)
      = some (some
          { hwnd := 1, message := WM_NCCALCSIZE, wParam := 1,
            lParam := LParam.ncCalcSize { demoNcCalcSize with
              rgrc0 := { left := 100, top := 100, right := 900, bottom := 700 } },
            time := 0, pt := { x := 0, y := 0 } }) := by
  refine ⟨rfl, by decide, by decide⟩

/-- C10, amended. For a handle with a record (width, height) in the geometry map
and `nCode >= 0`: on `WM_GETMINMAXINFO`, `MessageProc` writes the desired size
into both track-size bounds and returns `0` without passing the event on to the
next hook; on `WM_NCCALCSIZE` with non-zero `wParam` it makes the first rectangle
`width` by `height` from its top-left corner and then passes the event on to the
next hook, whose result it returns. -/
theorem C10_hook_minmax_and_nccalcsize (host : Host) (st : State) (hwnd : HWND)
    (sizeData : ResizeData) (nCode : Int) (wParam mwParam : WPARAM) (time : Nat) (pt : POINT)
    (hrec : Map.find st.g_windowSizes hwnd = some sizeData) (hn : nCode ≥ 0)
    (hwidth : isInt32 sizeData.width) (hheight : isInt32 sizeData.height) :
    (∀ info : MINMAXINFO,
      MessageProc host st nCode wParam
          { hwnd := hwnd, message := WM_GETMINMAXINFO, wParam := mwParam,
            lParam := LParam.minMaxInfo info, time := time, pt := pt }
        = some { result := 0,
                 msg := { hwnd := hwnd, message := WM_GETMINMAXINFO, wParam := mwParam,
                          lParam := LParam.minMaxInfo { info with
                            ptMinTrackSize := { x := sizeData.width, y := sizeData.height },
                            ptMaxTrackSize := { x := sizeData.width, y := sizeData.height } },
                          time := time, pt := pt },
                 state := st, passedOn := none }) ∧
    (∀ params : NCCALCSIZE_PARAMS, mwParam ≠ 0 →
      ∃ r rc,
        MessageProc host st nCode wParam
            { hwnd := hwnd, message := WM_NCCALCSIZE, wParam := mwParam,
              lParam := LParam.ncCalcSize params, time := time, pt := pt } = some r ∧
        r.passedOn = some
          { hwnd := hwnd, message := WM_NCCALCSIZE, wParam := mwParam,
            lParam := LParam.ncCalcSize { params with rgrc0 := rc }, time := time, pt := pt } ∧
        r.result = (host.CallNextHookEx st.g_messageHook nCode wParam
          { hwnd := hwnd, message := WM_NCCALCSIZE, wParam := mwParam,
            lParam := LParam.ncCalcSize { params with rgrc0 := rc }, time := time,
            pt := pt }).1 ∧
        rc.left = params.rgrc0.left ∧ rc.top = params.rgrc0.top ∧
        isub rc.right rc.left = sizeData.width ∧
        isub rc.bottom rc.top = sizeData.height) := by
  constructor
  · intro info
    simp [MessageProc, hn, hrec, WM_GETMINMAXINFO]
  · intro params hmw
    by_cases hdiff : isub params.rgrc0.right params.rgrc0.left ≠ sizeData.width ∨
        isub params.rgrc0.bottom params.rgrc0.top ≠ sizeData.height
    · have h : MessageProc host st nCode wParam
            { hwnd := hwnd, message := WM_NCCALCSIZE, wParam := mwParam,
              lParam := LParam.ncCalcSize params, time := time, pt := pt }
          = some (MessageProc.next host st nCode wParam
              { hwnd := hwnd, message := WM_NCCALCSIZE, wParam := mwParam,
                lParam := LParam.ncCalcSize { params with rgrc0 := { params.rgrc0 with
                  right := iadd params.rgrc0.left sizeData.width,
                  bottom := iadd params.rgrc0.top sizeData.height } },
                time := time, pt := pt }) := by
        simp only [MessageProc, if_pos hn, hrec]
        simp [WM_NCCALCSIZE, WM_GETMINMAXINFO, hmw, hdiff]
      refine ⟨_, _, h, rfl, rfl, rfl, rfl, ?_, ?_⟩
      · simp only [isub_iadd_cancel, wrap32_of_isInt32 hwidth]
      · simp only [isub_iadd_cancel, wrap32_of_isInt32 hheight]
    · have hsame : isub params.rgrc0.right params.rgrc0.left = sizeData.width ∧
          isub params.rgrc0.bottom params.rgrc0.top = sizeData.height := by
        constructor
        · by_contra hne
          exact hdiff (Or.inl hne)
        · by_contra hne
          exact hdiff (Or.inr hne)
      have h : MessageProc host st nCode wParam
            { hwnd := hwnd, message := WM_NCCALCSIZE, wParam := mwParam,
              lParam := LParam.ncCalcSize params, time := time, pt := pt }
          = some (MessageProc.next host st nCode wParam
              { hwnd := hwnd, message := WM_NCCALCSIZE, wParam := mwParam,
                lParam := LParam.ncCalcSize { params with rgrc0 := params.rgrc0 },
                time := time, pt := pt }) := by
        simp only [MessageProc, if_pos hn, hrec]
        simp [WM_NCCALCSIZE, WM_GETMINMAXINFO, hmw, hdiff]
      exact ⟨_, _, h, rfl, rfl, rfl, rfl, hsame.1, hsame.2⟩

/-- C10 (amended) at the enforced window of `demoEnforced`, record 800 by 600. -/
theorem C10_hook_minmax_and_nccalcsize_witness :
    (Map.find demoEnforced.g_windowSizes 1
        = some { width := 800, height := 600, keepForcing := true } ∧
      (0 : Int) ≥ 0 ∧ isInt32 800 ∧ isInt32 600 ∧ (1 : WPARAM) ≠ 0) ∧
    (MessageProc (demoHost { x := 0, y := 0 }) demoEnforced 0 1
        { hwnd := 1, message := WM_GETMINMAXINFO, wParam := 1,
          lParam := LParam.minMaxInfo demoMinMaxInfo, time := 0, pt := { x := 0, y := 0 } }).map
        (fun r => (r.result, r.passedOn, r.msg.lParam))
      = some (0, none, LParam.minMaxInfo { demoMinMaxInfo with
          ptMinTrackSize := { x := 800, y := 600 },
          ptMaxTrackSize := { x := 800, y := 600 } }) ∧
    ∃ r rc,
      MessageProc (demoHost { x := 0, y := 0 }) demoEnforced 0 1
          { hwnd := 1, message := WM_NCCALCSIZE, wParam := 1,
            lParam := LParam.ncCalcSize demoNcCalcSize, time := 0, pt := { x := 0, y := 0 } }
        = some r ∧
      r.passedOn = some
        { hwnd := 1, message := WM_NCCALCSIZE, wParam := 1,
          lParam := LParam.ncCalcSize { demoNcCalcSize with rgrc0 := rc }, time := 0,
          pt := { x := 0, y := 0 } } ∧
      rc.left = 100 ∧ rc.top = 100 ∧ isub rc.right rc.left = 800 ∧
      isub rc.bottom rc.top = 600 := by
  refine ⟨⟨rfl, by decide, by decide, by decide, by decide⟩, ?_, ?_⟩
  · rw [(C10_hook_minmax_and_nccalcsize (demoHost { x := 0, y := 0 }) demoEnforced 1
      { width := 800, height := 600, keepForcing := true } 0 1 1 0 { x := 0, y := 0 }
      rfl (by decide) (by decide) (by decide)).1 demoMinMaxInfo]
    rfl
  · obtain ⟨r, rc, hr, hp, _, hl, ht, hw, hh⟩ :=
      (C10_hook_minmax_and_nccalcsize (demoHost { x := 0, y := 0 }) demoEnforced 1
        { width := 800, height := 600, keepForcing := true } 0 1 1 0 { x := 0, y := 0 }
        rfl (by decide) (by decide) (by decide)).2 demoNcCalcSize (by decide)
    exact ⟨r, rc, hr, hp, hl, ht, hw, hh⟩

/-- C13: the style adjustment `strip` of `ForceWindowSizeThread` is idempotent,
and for every 32-bit style word `s` the result has none of the thick-frame,
maximize-box and minimize-box bits, has every bit of `WS_CAPTION`, agrees with
`s` on every bit outside these four masks, and is a 32-bit word again. -/
theorem C13_strip_idempotent_bits (s : Nat) (hs : s < 4294967296) :
    strip (strip s) = strip s ∧
    strip s &&& WS_THICKFRAME = 0 ∧ strip s &&& WS_MAXIMIZEBOX = 0 ∧
    strip s &&& WS_MINIMIZEBOX = 0 ∧
    strip s &&& WS_CAPTION = WS_CAPTION ∧
    (∀ i, (WS_THICKFRAME ||| WS_MAXIMIZEBOX ||| WS_MINIMIZEBOX ||| WS_CAPTION).testBit i = false →
      (strip s).testBit i = s.testBit i) ∧
    strip s < 4294967296 := by
  refine ⟨?_, ?_, ?_, ?_, ?_, ?_, ?_⟩
  · apply Nat.eq_of_testBit_eq
    intro i
    rw [testBit_strip (strip s), testBit_strip s]
    by_cases hi : i < 32
    · interval_cases i <;> generalize s.testBit _ = b <;> revert b <;> decide
    · obtain ⟨h1, h2, _⟩ := const_bits_high (Nat.le_of_not_lt hi)
      simp [h1, h2]
  · exact strip_and_mask s WS_THICKFRAME (by decide)
      (fun i hi => by interval_cases i <;> decide)
  · exact strip_and_mask s WS_MAXIMIZEBOX (by decide)
      (fun i hi => by interval_cases i <;> decide)
  · exact strip_and_mask s WS_MINIMIZEBOX (by decide)
      (fun i hi => by interval_cases i <;> decide)
  · exact strip_and_mask s WS_CAPTION (by decide)
      (fun i hi => by interval_cases i <;> decide)
  · intro i hmask
    rw [testBit_strip]
    by_cases hi : i < 32
    · interval_cases i <;> first
        | (exact absurd hmask (by decide))
        | (generalize s.testBit _ = b; revert b; decide)
    · obtain ⟨h1, h2, _⟩ := const_bits_high (Nat.le_of_not_lt hi)
      rw [h1, h2, testBit_word_high hs (Nat.le_of_not_lt hi)]
      rfl
  · rw [strip_eq]
    have h1 : s &&& 0xFFF8FFFF < 2 ^ 32 := Nat.and_lt_two_pow s (by decide)
    have h2 : (0x00C00000 : Nat) < 2 ^ 32 := by decide
    have h3 := Nat.or_lt_two_pow h1 h2
    simpa using h3

/-- C13 at the overlapped-window style `0x00CF0000`. -/
theorem C13_strip_idempotent_bits_witness :
    (0x00CF0000 : Nat) < 4294967296 ∧
    strip (strip 0x00CF0000) = strip 0x00CF0000 ∧
    strip 0x00CF0000 &&& WS_THICKFRAME = 0 ∧ strip 0x00CF0000 &&& WS_MAXIMIZEBOX = 0 ∧
    strip 0x00CF0000 &&& WS_MINIMIZEBOX = 0 ∧
    strip 0x00CF0000 &&& WS_CAPTION = WS_CAPTION ∧
    (∀ i, (WS_THICKFRAME ||| WS_MAXIMIZEBOX ||| WS_MINIMIZEBOX ||| WS_CAPTION).testBit i = false →
      (strip 0x00CF0000).testBit i = (0x00CF0000 : Nat).testBit i) ∧
    strip 0x00CF0000 < 4294967296 :=
  ⟨by decide, C13_strip_idempotent_bits 0x00CF0000 (by decide)⟩

/-- C12: a second `ForceWindowSize` on an enforced handle overwrites the capture.
A valid window, not yet in the original-procedure map, has the original
procedure `p` (not the interceptor). After `ForceWindowSize(h, w1, h1)`, whose
loop initialises and takes any number of steps, the map holds `p` and the record
is `(w1, h1)`. The second call `ForceWindowSize(h, w2, h2)` returns true and
stores the interceptor `CustomWindowProc` in place of `p`; once its loop has
initialised (the first loop may step in between) the record is `(w2, h2)`; and
after a following `CleanupResources` the procedure of the window is
`CustomWindowProc`, not `p`. -/
theorem C12_second_call_overwrites_capture (st : State) (hwnd : HWND)
    (width1 height1 width2 height2 : Int) (hookA1 hookB1 hookA2 hookB2 : HHOOK)
    (w : Window) (n m : Nat)
    (hnz : hwnd ≠ 0) (hwin : st.windows hwnd = some w)
    (hfresh : Map.find st.g_originalWndProcs hwnd = none)
    (horig : w.wndProc ≠ WNDPROC.CustomWindowProc) :
    let i1 := st.threads.length
    let st1 := (ForceWindowSize st hwnd width1 height1 hookA1 hookB1).2
    let st2 := stepsThread st1 i1 (n + 1)
    let st3 := (ForceWindowSize st2 hwnd width2 height2 hookA2 hookB2).2
    let st4 := stepsThread st3 i1 m
    let st5 := stepThread st4 (i1 + 1)
    let st6 := CleanupResources st5
    Map.find st2.g_originalWndProcs hwnd = some w.wndProc ∧
    Map.find st2.g_windowSizes hwnd
      = some { width := width1, height := height1, keepForcing := true } ∧
    (ForceWindowSize st2 hwnd width2 height2 hookA2 hookB2).1 = true ∧
    Map.find st3.g_originalWndProcs hwnd = some WNDPROC.CustomWindowProc ∧
    Map.find st4.g_windowSizes hwnd
      = some { width := width1, height := height1, keepForcing := true } ∧
    Map.find st5.g_originalWndProcs hwnd = some WNDPROC.CustomWindowProc ∧
    Map.find st5.g_windowSizes hwnd
      = some { width := width2, height := height2, keepForcing := true } ∧
    (∃ w6, st6.windows hwnd = some w6 ∧ w6.wndProc = WNDPROC.CustomWindowProc ∧
      w6.wndProc ≠ w.wndProc) := by
  intro i1 st1 st2 st3 st4 st5 st6
  -- the first call
  obtain ⟨_, f2, f3, f4, f5⟩ :=
    ForceWindowSize_effect st hwnd width1 height1 hookA1 hookB1 w hnz hwin
  have ht1 : st1.threads[i1]? = some (Thread.spawn hwnd width1 height1) := by
    simp only [st1, f4]
    exact List.getElem?_concat_length _ _
  -- the first loop initialises and goes on
  obtain ⟨⟨t1, ht1a, hpc1, _⟩, hsz1⟩ := stepThread_thread st1 i1 _ ht1
  obtain ⟨⟨t2, ht2, hpc2, _⟩, hsz2⟩ := stepsThread_started (stepThread st1 i1) i1 n t1 ht1a hpc1
  obtain ⟨g1, g2, _, g4⟩ := stepsThread_effect st1 i1 (n + 1)
  have hst2 : st2 = stepsThread (stepThread st1 i1) i1 n := rfl
  have hrec2 : Map.find st2.g_windowSizes hwnd
      = some { width := width1, height := height1, keepForcing := true } := by
    rw [hst2, hsz2, hsz1]
    simp only [Thread.spawn, if_true]
    exact Map.find_assign_self _ _ _
  have hprocs2 : st2.g_originalWndProcs = Map.assign st.g_originalWndProcs hwnd w.wndProc :=
    g1.trans f2
  obtain ⟨wa, hwa, hqa⟩ := window_of_wndProc
    (show (st2.windows hwnd).map (fun w => w.wndProc) = some WNDPROC.CustomWindowProc by
      rw [g4 hwnd]
      simp only [st1, f5, Option.map_some'])
  -- the second call
  obtain ⟨k1, k2, k3, k4, k5⟩ :=
    ForceWindowSize_effect st2 hwnd width2 height2 hookA2 hookB2 wa hnz hwa
  have hprocs3 : st3.g_originalWndProcs
      = Map.assign st.g_originalWndProcs hwnd WNDPROC.CustomWindowProc := by
    simp only [st3, k2, hprocs2, hqa]
    exact Map.assign_assign _ _ _ _
  have hlen2 : st2.threads.length = i1 + 1 := by
    rw [g2]
    simp only [st1, f4]
    simp [i1]
  have ht3a : st3.threads[i1]? = some t2 := by
    have hlt : i1 < st2.threads.length := by omega
    simp only [st3, k4]
    rw [List.getElem?_append_left hlt]
    exact ht2
  have ht3b : st3.threads[i1 + 1]? = some (Thread.spawn hwnd width2 height2) := by
    simp only [st3, k4]
    rw [← hlen2]
    exact List.getElem?_concat_length _ _
  -- the first loop goes on, the second initialises
  obtain ⟨_, hsz4⟩ := stepsThread_started st3 i1 m t2 ht3a hpc2
  obtain ⟨m1, _, m3, m4⟩ := stepsThread_effect st3 i1 m
  have ht4b : st4.threads[i1 + 1]? = some (Thread.spawn hwnd width2 height2) := by
    rw [← ht3b]
    exact m3 (i1 + 1) (by omega)
  have hrec4 : Map.find st4.g_windowSizes hwnd
      = some { width := width1, height := height1, keepForcing := true } := by
    have e : st4.g_windowSizes = st2.g_windowSizes := hsz4.trans k3
    rw [e]
    exact hrec2
  obtain ⟨_, hsz5⟩ := stepThread_thread st4 (i1 + 1) _ ht4b
  obtain ⟨p1, _, _, p4⟩ := stepThread_effect st4 (i1 + 1)
  have hprocs5 : st5.g_originalWndProcs
      = Map.assign st.g_originalWndProcs hwnd WNDPROC.CustomWindowProc :=
    p1.trans (m1.trans hprocs3)
  have hrec5 : Map.find st5.g_windowSizes hwnd
      = some { width := width2, height := height2, keepForcing := true } := by
    simp only [st5, hsz5, Thread.spawn, if_true]
    exact Map.find_assign_self _ _ _
  obtain ⟨w5, hw5, _⟩ := window_of_wndProc
    (show (st5.windows hwnd).map (fun w => w.wndProc) = some WNDPROC.CustomWindowProc by
      rw [p4 hwnd, m4 hwnd]
      simp only [st3, k5, Option.map_some'])
  -- the cleanup
  obtain ⟨c1, _⟩ := CleanupResources_fields st5
  have hw6 : st6.windows hwnd = some { w5 with wndProc := WNDPROC.CustomWindowProc } := by
    simp only [st6, c1, hprocs5]
    exact restoreWndProcs_assign _ _ _ _ _ hfresh hw5
  refine ⟨?_, hrec2, k1, ?_, hrec4, ?_, hrec5, _, hw6, rfl, fun e => horig e.symm⟩
  · rw [hprocs2]
    exact Map.find_assign_self _ _ _
  · rw [hprocs3]
    exact Map.find_assign_self _ _ _
  · rw [hprocs5]
    exact Map.find_assign_self _ _ _

/-- C12 on `demoDesktop`: window `1` enforced at 800 by 600, then at 1024 by 768. -/
theorem C12_second_call_overwrites_capture_witness :
    ((1 : HWND) ≠ 0 ∧ Map.find demoState.g_originalWndProcs 1 = none ∧
      WNDPROC.native 7 ≠ WNDPROC.CustomWindowProc) ∧
    (let st2 := stepsThread (ForceWindowSize demoState 1 800 600 11 12).2 0 (2 + 1)
     let st3 := (ForceWindowSize st2 1 1024 768 13 14).2
     let st4 := stepsThread st3 0 1
     let st5 := stepThread st4 (0 + 1)
     let st6 := CleanupResources st5
     Map.find st2.g_originalWndProcs 1 = some (WNDPROC.native 7) ∧
     Map.find st2.g_windowSizes 1 = some { width := 800, height := 600, keepForcing := true } ∧
     (ForceWindowSize st2 1 1024 768 13 14).1 = true ∧
     Map.find st3.g_originalWndProcs 1 = some WNDPROC.CustomWindowProc ∧
     Map.find st4.g_windowSizes 1 = some { width := 800, height := 600, keepForcing := true } ∧
     Map.find st5.g_originalWndProcs 1 = some WNDPROC.CustomWindowProc ∧
     Map.find st5.g_windowSizes 1
       = some { width := 1024, height := 768, keepForcing := true } ∧
     (∃ w6, st6.windows 1 = some w6 ∧ w6.wndProc = WNDPROC.CustomWindowProc ∧
       w6.wndProc ≠ WNDPROC.native 7)) :=
  ⟨⟨by decide, rfl, by decide⟩,
    C12_second_call_overwrites_capture demoState 1 800 600 1024 768 11 12 13 14
      { rect := { left := 100, top := 100, right := 500, bottom := 400 },
        style := 0x00CF0000, exStyle := 0x00000100, wndProc := WNDPROC.native 7 }
      2 1 (by decide) rfl rfl (by decide)⟩

/-- C11 fails as stated. From the empty registry of `demoState`, the
interleaving `ForceWindowSize` on window `1`, `CleanupResources`, initialisation
of the spawned loop reaches `demoRace`, where handle `1` has a record in the
geometry map and no entry in the original-procedure map. -/
theorem C11_counterexample :
    EmptyRegistry demoState ∧ Reachable Step demoState demoRace ∧
    Map.find demoRace.g_windowSizes 1
      = some { width := 800, height := 600, keepForcing := true } ∧
    Map.find demoRace.g_originalWndProcs 1 = none ∧
    ¬ RegistryInv demoRace := by
  refine ⟨⟨rfl, rfl, rfl⟩, ?_, rfl, rfl, ?_⟩
  · exact Reachable.next
      (Reachable.next
        (Reachable.next Reachable.start (Step.forceWindowSize demoState 1 800 600 11 12))
        (Step.cleanup _))
      (Step.thread _ 0)
  · intro hinv
    have h := hinv 1 rfl
    cases h

/-- C11, amended. In every state reachable from the empty registry (both maps
empty, no thread spawned) by any interleaving of calls of `ForceWindowSize`,
steps of the spawned loops (initialisation, geometry pass, flag check, exit) and
calls of `CleanupResources` in which `CleanupResources` runs only when no
spawned loop is still waiting to initialise, every handle present in the
geometry map `g_windowSizes` is present in the original-procedure map
`g_originalWndProcs`. -/
theorem C11_registry_invariant_guarded (init st : State) (hinit : EmptyRegistry init)
    (hreach : Reachable GuardedStep init st) : RegistryInv st :=
  (guarded_invariant init st hinit hreach).1

/-- C11 (amended) on `demoDesktop`: `ForceWindowSize` on window `1`, then the
initialisation of its loop, reach `demoEnforced`, where handle `1` is in both maps. -/
theorem C11_registry_invariant_guarded_witness :
    EmptyRegistry demoState ∧ Reachable GuardedStep demoState demoEnforced ∧
    Map.find demoEnforced.g_windowSizes 1
      = some { width := 800, height := 600, keepForcing := true } ∧
    Map.find demoEnforced.g_originalWndProcs 1 = some (WNDPROC.native 7) ∧
    RegistryInv demoEnforced :=
  have hreach : Reachable GuardedStep demoState demoEnforced :=
    Reachable.next
      (Reachable.next Reachable.start (GuardedStep.forceWindowSize demoState 1 800 600 11 12))
      (GuardedStep.thread _ 0)
  ⟨⟨rfl, rfl, rfl⟩, hreach, rfl, rfl,
    C11_registry_invariant_guarded demoState demoEnforced ⟨rfl, rfl, rfl⟩ hreach⟩

end FRW
